import Mathlib

/-!
# Outcome value storage: the status tag and the storage cells

A shallow embedding of `include/outcome/detail/value_storage.hpp`.

* `status` is the `enum class status : uint16_t`; `status.code` gives each enumerator's
  numeric value.
* `status_bitfield_type` is the tag: a `uint16_t` status word and a `uint16_t` of spare storage.
  Both are natural numbers; every operation that stores into the status word truncates to
  16 bits, as the `static_cast<status>` of the source does.
* The getters and setters come in the two forms the source has: the bitwise form (compiled,
  because `OUTCOME_USE_CONSTEXPR_ENUM_STATUS` is `0`) and the `switch` form of the
  `#if OUTCOME_USE_CONSTEXPR_ENUM_STATUS` branch, whose names end in `_enum` here.
-/

namespace outcome

/-! ## The status enumeration -/

/-- The sixteen enumerators of `enum class status : uint16_t`. -/
inductive status where
  | none
  | have_value
  | have_error
  | have_exception
  | have_error_exception
  | have_lost_consistency
  | have_value_lost_consistency
  | have_error_lost_consistency
  | have_exception_lost_consistency
  | have_error_exception_lost_consistency
  | have_error_is_errno
  | have_error_error_is_errno
  | have_error_exception_error_is_errno
  | have_error_lost_consistency_error_is_errno
  | have_error_exception_lost_consistency_error_is_errno
  | have_moved_from
  deriving DecidableEq, Repr, Fintype

/-- The numeric value of an enumerator, as written in the enum's initialisers. -/
def status.code : status → Nat
  | .none => 0
  | .have_value => 1 <<< 0
  | .have_error => 1 <<< 1
  | .have_exception => 2 <<< 1
  | .have_error_exception => 3 <<< 1
  | .have_lost_consistency => 1 <<< 3
  | .have_value_lost_consistency => (1 <<< 0) ||| (1 <<< 3)
  | .have_error_lost_consistency => (1 <<< 1) ||| (1 <<< 3)
  | .have_exception_lost_consistency => (2 <<< 1) ||| (1 <<< 3)
  | .have_error_exception_lost_consistency => (3 <<< 1) ||| (1 <<< 3)
  | .have_error_is_errno => 1 <<< 4
  | .have_error_error_is_errno => (1 <<< 1) ||| (1 <<< 4)
  | .have_error_exception_error_is_errno => (3 <<< 1) ||| (1 <<< 4)
  | .have_error_lost_consistency_error_is_errno => (1 <<< 1) ||| (1 <<< 3) ||| (1 <<< 4)
  | .have_error_exception_lost_consistency_error_is_errno => (3 <<< 1) ||| (1 <<< 3) ||| (1 <<< 4)
  | .have_moved_from => 1 <<< 5

/-- The enumerator a status word names, if it names one (what a `switch` over the enumerators
compares against). -/
def status.ofCode (w : Nat) : Option status :=
  if w = status.none.code then some .none
  else if w = status.have_value.code then some .have_value
  else if w = status.have_error.code then some .have_error
  else if w = status.have_exception.code then some .have_exception
  else if w = status.have_error_exception.code then some .have_error_exception
  else if w = status.have_lost_consistency.code then some .have_lost_consistency
  else if w = status.have_value_lost_consistency.code then some .have_value_lost_consistency
  else if w = status.have_error_lost_consistency.code then some .have_error_lost_consistency
  else if w = status.have_exception_lost_consistency.code then
    some .have_exception_lost_consistency
  else if w = status.have_error_exception_lost_consistency.code then
    some .have_error_exception_lost_consistency
  else if w = status.have_error_is_errno.code then some .have_error_is_errno
  else if w = status.have_error_error_is_errno.code then some .have_error_error_is_errno
  else if w = status.have_error_exception_error_is_errno.code then
    some .have_error_exception_error_is_errno
  else if w = status.have_error_lost_consistency_error_is_errno.code then
    some .have_error_lost_consistency_error_is_errno
  else if w = status.have_error_exception_lost_consistency_error_is_errno.code then
    some .have_error_exception_lost_consistency_error_is_errno
  else if w = status.have_moved_from.code then some .have_moved_from
  else Option.none

/-! ## The tag -/

/-- The tag `status_bitfield_type`: the status word and the spare storage, both `uint16_t`. -/
structure status_bitfield_type where
  status_value : Nat := status.none.code
  spare_storage_value : Nat := 0
  deriving DecidableEq, Repr

/-- The conversion `static_cast<uint16_t>` / `static_cast<status>` of an `int` result. -/
def to_uint16 (n : Nat) : Nat := n % 65536

/-- The operator `~` on a `uint16_t` operand: the operand is promoted to a 32-bit `int`
and every bit is flipped. The result is given as its 32-bit pattern. -/
def bit_not (m : Nat) : Nat := 4294967295 ^^^ m

/-- The expression `v ? (status_value | mask) : (status_value & ~mask)` cast back to `status`,
shared by the bitwise form of all six setters. -/
def set_bits (w : Nat) (mask : Nat) (v : Bool) : Nat :=
  to_uint16 (if v then to_uint16 w ||| to_uint16 mask else to_uint16 w &&& bit_not (to_uint16 mask))

/-- The expression `(status_value & mask) != 0`, shared by the bitwise form of all getters. -/
def test_bits (w : Nat) (mask : Nat) : Bool :=
  (to_uint16 w &&& to_uint16 mask) != 0

namespace status_bitfield_type

/-- Bitwise `have_value()`. -/
def have_value (t : status_bitfield_type) : Bool :=
  test_bits t.status_value status.have_value.code

/-- Bitwise `have_error()`. -/
def have_error (t : status_bitfield_type) : Bool :=
  test_bits t.status_value status.have_error.code

/-- Bitwise `have_exception()`. -/
def have_exception (t : status_bitfield_type) : Bool :=
  test_bits t.status_value status.have_exception.code

/-- Bitwise `have_lost_consistency()`. -/
def have_lost_consistency (t : status_bitfield_type) : Bool :=
  test_bits t.status_value status.have_lost_consistency.code

/-- Bitwise `have_error_is_errno()`. -/
def have_error_is_errno (t : status_bitfield_type) : Bool :=
  test_bits t.status_value status.have_error_is_errno.code

/-- Bitwise `have_moved_from()`. -/
def have_moved_from (t : status_bitfield_type) : Bool :=
  test_bits t.status_value status.have_moved_from.code

/-- Bitwise `set_have_value(v)`. -/
def set_have_value (t : status_bitfield_type) (v : Bool) : status_bitfield_type :=
  { t with status_value := set_bits t.status_value status.have_value.code v }

/-- Bitwise `set_have_error(v)`. -/
def set_have_error (t : status_bitfield_type) (v : Bool) : status_bitfield_type :=
  { t with status_value := set_bits t.status_value status.have_error.code v }

/-- Bitwise `set_have_exception(v)`. -/
def set_have_exception (t : status_bitfield_type) (v : Bool) : status_bitfield_type :=
  { t with status_value := set_bits t.status_value status.have_exception.code v }

/-- Bitwise `set_have_error_is_errno(v)`. -/
def set_have_error_is_errno (t : status_bitfield_type) (v : Bool) : status_bitfield_type :=
  { t with status_value := set_bits t.status_value status.have_error_is_errno.code v }

/-- Bitwise `set_have_lost_consistency(v)`. -/
def set_have_lost_consistency (t : status_bitfield_type) (v : Bool) : status_bitfield_type :=
  { t with status_value := set_bits t.status_value status.have_lost_consistency.code v }

/-- Bitwise `set_have_moved_from(v)`. -/
def set_have_moved_from (t : status_bitfield_type) (v : Bool) : status_bitfield_type :=
  { t with status_value := set_bits t.status_value status.have_moved_from.code v }

/-- The call `make_ub(*this)`: the function does not return (`assert(false)` followed by
`__builtin_unreachable()`), so the transition has no successor. -/
def make_ub {α : Type} : Option α := Option.none

/-- The assignment `status_value = status::s` of the `switch` form. -/
def assign (t : status_bitfield_type) (s : status) : status_bitfield_type :=
  { t with status_value := s.code }

/-- The `switch` form of `set_have_value(v)`, from the `#if OUTCOME_USE_CONSTEXPR_ENUM_STATUS`
branch: `Option.none` is a call of `make_ub`; a status word no `case` names is left as it is. -/
def set_have_value_enum (t : status_bitfield_type) (v : Bool) :
    Option status_bitfield_type :=
  match status.ofCode t.status_value with
  | some .none =>
    if v then some (t.assign .have_value) else some t
  | some .have_value =>
    if !v then some (t.assign .none) else some t
  | some .have_error =>
    if v then make_ub else some t
  | some .have_exception =>
    if v then make_ub else some t
  | some .have_error_exception =>
    if v then make_ub else some t
  | some .have_value_lost_consistency =>
    if !v then some (t.assign .none) else some t
  | some .have_error_lost_consistency =>
    if v then make_ub else some t
  | some .have_exception_lost_consistency =>
    if v then make_ub else some t
  | some .have_error_exception_lost_consistency =>
    if v then make_ub else some t
  | some .have_error_error_is_errno =>
    if v then make_ub else some t
  | some .have_error_exception_error_is_errno =>
    if v then make_ub else some t
  | some .have_error_lost_consistency_error_is_errno =>
    if v then make_ub else some t
  | some .have_error_exception_lost_consistency_error_is_errno =>
    if v then make_ub else some t
  | _ => some t

/-- The `switch` form of `set_have_error(v)`, from the `#if OUTCOME_USE_CONSTEXPR_ENUM_STATUS`
branch: `Option.none` is a call of `make_ub`; a status word no `case` names is left as it is. -/
def set_have_error_enum (t : status_bitfield_type) (v : Bool) :
    Option status_bitfield_type :=
  match status.ofCode t.status_value with
  | some .none =>
    if v then some (t.assign .have_error) else some t
  | some .have_value =>
    if v then make_ub else some t
  | some .have_error =>
    if !v then some (t.assign .none) else some t
  | some .have_exception =>
    if v then some (t.assign .have_error_exception) else some t
  | some .have_error_exception =>
    if !v then some (t.assign .have_exception) else some t
  | some .have_value_lost_consistency =>
    if v then make_ub else some t
  | some .have_error_lost_consistency =>
    if !v then some (t.assign .none) else some t
  | some .have_exception_lost_consistency =>
    if v then some (t.assign .have_error_exception_lost_consistency) else some t
  | some .have_error_exception_lost_consistency =>
    if !v then some (t.assign .have_exception_lost_consistency) else some t
  | some .have_error_error_is_errno =>
    if !v then some (t.assign .none) else some t
  | some .have_error_exception_error_is_errno =>
    if !v then some (t.assign .have_exception) else some t
  | some .have_error_lost_consistency_error_is_errno =>
    if !v then some (t.assign .none) else some t
  | some .have_error_exception_lost_consistency_error_is_errno =>
    if !v then some (t.assign .have_exception_lost_consistency) else some t
  | _ => some t

/-- The `switch` form of `set_have_exception(v)`, from the `#if OUTCOME_USE_CONSTEXPR_ENUM_STATUS`
branch: `Option.none` is a call of `make_ub`; a status word no `case` names is left as it is. -/
def set_have_exception_enum (t : status_bitfield_type) (v : Bool) :
    Option status_bitfield_type :=
  match status.ofCode t.status_value with
  | some .none =>
    if v then some (t.assign .have_exception) else some t
  | some .have_value =>
    if v then make_ub else some t
  | some .have_error =>
    if v then some (t.assign .have_error_exception) else some t
  | some .have_exception =>
    if !v then some (t.assign .none) else some t
  | some .have_error_exception =>
    if !v then some (t.assign .have_error) else some t
  | some .have_value_lost_consistency =>
    if v then make_ub else some t
  | some .have_error_lost_consistency =>
    if v then some (t.assign .have_error_exception_lost_consistency) else some t
  | some .have_exception_lost_consistency =>
    if !v then some (t.assign .none) else some t
  | some .have_error_exception_lost_consistency =>
    if !v then some (t.assign .have_error_lost_consistency) else some t
  | some .have_error_error_is_errno =>
    if v then some (t.assign .have_error_exception_error_is_errno) else some t
  | some .have_error_exception_error_is_errno =>
    if !v then some (t.assign .have_error_error_is_errno) else some t
  | some .have_error_lost_consistency_error_is_errno =>
    if v then some (t.assign .have_error_exception_lost_consistency_error_is_errno) else some t
  | some .have_error_exception_lost_consistency_error_is_errno =>
    if !v then some (t.assign .have_error_lost_consistency_error_is_errno) else some t
  | _ => some t

/-- The `switch` form of `set_have_error_is_errno(v)`, from the `#if OUTCOME_USE_CONSTEXPR_ENUM_STATUS`
branch: `Option.none` is a call of `make_ub`; a status word no `case` names is left as it is. -/
def set_have_error_is_errno_enum (t : status_bitfield_type) (v : Bool) :
    Option status_bitfield_type :=
  match status.ofCode t.status_value with
  | some .none => make_ub
  | some .have_value => make_ub
  | some .have_error =>
    if v then some (t.assign .have_error_error_is_errno) else some t
  | some .have_exception => make_ub
  | some .have_error_exception =>
    if v then some (t.assign .have_error_exception_error_is_errno) else some t
  | some .have_value_lost_consistency => make_ub
  | some .have_error_lost_consistency =>
    if v then some (t.assign .have_error_lost_consistency_error_is_errno) else some t
  | some .have_exception_lost_consistency => make_ub
  | some .have_error_exception_lost_consistency =>
    if v then some (t.assign .have_error_exception_lost_consistency_error_is_errno) else some t
  | some .have_error_error_is_errno =>
    if !v then some (t.assign .have_error) else some t
  | some .have_error_exception_error_is_errno =>
    if !v then some (t.assign .have_error_exception) else some t
  | some .have_error_lost_consistency_error_is_errno =>
    if !v then some (t.assign .have_error_lost_consistency) else some t
  | some .have_error_exception_lost_consistency_error_is_errno =>
    if !v then some (t.assign .have_error_exception_lost_consistency) else some t
  | _ => some t

/-- The `switch` form of `set_have_lost_consistency(v)`, from the `#if OUTCOME_USE_CONSTEXPR_ENUM_STATUS`
branch: `Option.none` is a call of `make_ub`; a status word no `case` names is left as it is. -/
def set_have_lost_consistency_enum (t : status_bitfield_type) (v : Bool) :
    Option status_bitfield_type :=
  match status.ofCode t.status_value with
  | some .none =>
    if v then make_ub else some t
  | some .have_value =>
    if v then some (t.assign .have_value_lost_consistency) else some t
  | some .have_error =>
    if v then some (t.assign .have_error_lost_consistency) else some t
  | some .have_exception =>
    if v then some (t.assign .have_exception_lost_consistency) else some t
  | some .have_error_exception =>
    if v then some (t.assign .have_error_exception_lost_consistency) else some t
  | some .have_value_lost_consistency =>
    if !v then some (t.assign .have_value) else some t
  | some .have_error_lost_consistency =>
    if !v then some (t.assign .have_error) else some t
  | some .have_exception_lost_consistency =>
    if !v then some (t.assign .have_exception) else some t
  | some .have_error_exception_lost_consistency =>
    if !v then some (t.assign .have_error_exception) else some t
  | some .have_error_error_is_errno =>
    if v then some (t.assign .have_error_lost_consistency_error_is_errno) else some t
  | some .have_error_exception_error_is_errno =>
    if v then some (t.assign .have_error_exception_lost_consistency_error_is_errno) else some t
  | some .have_error_lost_consistency_error_is_errno =>
    if !v then some (t.assign .have_error_exception_error_is_errno) else some t
  | some .have_error_exception_lost_consistency_error_is_errno =>
    if !v then some (t.assign .have_error_exception_error_is_errno) else some t
  | _ => some t

end status_bitfield_type

/-! ## Flags and setters by name -/

/-- The six flags of the tag, one per getter/setter pair. -/
inductive flag where
  | value
  | error
  | exception
  | error_is_errno
  | lost_consistency
  | moved_from
  deriving DecidableEq, Repr, Fintype

/-- The bitwise getter `have_X()` of a flag `X`. -/
def flag.get : flag → status_bitfield_type → Bool
  | .value => status_bitfield_type.have_value
  | .error => status_bitfield_type.have_error
  | .exception => status_bitfield_type.have_exception
  | .error_is_errno => status_bitfield_type.have_error_is_errno
  | .lost_consistency => status_bitfield_type.have_lost_consistency
  | .moved_from => status_bitfield_type.have_moved_from

/-- The bitwise setter `set_have_X(v)` of a flag `X`. -/
def flag.set : flag → status_bitfield_type → Bool → status_bitfield_type
  | .value => status_bitfield_type.set_have_value
  | .error => status_bitfield_type.set_have_error
  | .exception => status_bitfield_type.set_have_exception
  | .error_is_errno => status_bitfield_type.set_have_error_is_errno
  | .lost_consistency => status_bitfield_type.set_have_lost_consistency
  | .moved_from => status_bitfield_type.set_have_moved_from

/-- The five setters that have a `switch` form (`set_have_moved_from` has none: its
`#if OUTCOME_USE_CONSTEXPR_ENUM_STATUS` branch is `#error Fixme`). -/
inductive table_setter where
  | set_have_value
  | set_have_error
  | set_have_exception
  | set_have_error_is_errno
  | set_have_lost_consistency
  deriving DecidableEq, Repr, Fintype

/-- The flag a table setter writes. -/
def table_setter.flag : table_setter → flag
  | .set_have_value => .value
  | .set_have_error => .error
  | .set_have_exception => .exception
  | .set_have_error_is_errno => .error_is_errno
  | .set_have_lost_consistency => .lost_consistency

/-- The `switch` form of a table setter. -/
def table_setter.table : table_setter → status_bitfield_type → Bool → Option status_bitfield_type
  | .set_have_value => status_bitfield_type.set_have_value_enum
  | .set_have_error => status_bitfield_type.set_have_error_enum
  | .set_have_exception => status_bitfield_type.set_have_exception_enum
  | .set_have_error_is_errno => status_bitfield_type.set_have_error_is_errno_enum
  | .set_have_lost_consistency => status_bitfield_type.set_have_lost_consistency_enum

/-- The bitwise form of a table setter. -/
def table_setter.bitwise (f : table_setter) (t : status_bitfield_type) (v : Bool) :
    status_bitfield_type :=
  f.flag.set t v

/-- The thirteen states the `switch` statements have a `case` for. -/
def status.handled : status → Bool
  | .have_lost_consistency => false
  | .have_error_is_errno => false
  | .have_moved_from => false
  | _ => true

/-! ## Sequences of setter calls under the contract preconditions -/

/-- One call `set_have_X(v)` of a bitwise setter. -/
structure setter_call where
  X : flag
  v : Bool
  deriving DecidableEq, Repr

/-- The contract precondition of a setter call on a tag: `set_have_value(true)` needs a tag
with neither error nor exception, `set_have_error(true)` and `set_have_exception(true)` need a
tag without value; every other call is unconditionally allowed. -/
def setter_call.allowed (c : setter_call) (t : status_bitfield_type) : Bool :=
  match c.X, c.v with
  | .value, true => !t.have_error && !t.have_exception
  | .error, true => !t.have_value
  | .exception, true => !t.have_value
  | _, _ => true

/-- Run a sequence of setter calls on a tag with the bitwise setters; `Option.none` when some
call is made on a tag that does not meet its precondition. -/
def run_calls (t : status_bitfield_type) : List setter_call → Option status_bitfield_type
  | [] => some t
  | c :: cs => if c.allowed t then run_calls (c.X.set t c.v) cs else Option.none

/-- The position of the single bit a flag occupies in the status word. -/
def flag.bit : flag → Nat
  | .value => 0
  | .error => 1
  | .exception => 2
  | .lost_consistency => 3
  | .error_is_errno => 4
  | .moved_from => 5

/-- A tag that has a value has neither an error nor an exception. -/
def value_exclusive (t : status_bitfield_type) : Prop :=
  t.have_value = true → t.have_error = false ∧ t.have_exception = false

instance (t : status_bitfield_type) : Decidable (value_exclusive t) :=
  inferInstanceAs (Decidable (t.have_value = true → t.have_error = false ∧ t.have_exception = false))

/-! ## The payload type

The payload type `T` is a template parameter of the header. Its special member functions are
described by a `payload_type`: which constructor calls and which assignment calls throw, and
the state a moved-from object is left in. A call that throws leaves its operands as they
were; a call that succeeds transfers the value. `payload_log` counts the calls, as a counting
payload type does. The `noexcept` specifications of the header are not modelled: an exception
always propagates to the caller. -/

/-- The behaviour of a payload type `T` whose operations throw exceptions of type `E`. -/
structure payload_type (T E : Type) where
  /-- The exception thrown by the constructor call with the given index, if that call throws. -/
  ctor_throws : Nat → Option E
  /-- The exception thrown by the assignment call with the given index, if that call throws. -/
  assign_throws : Nat → Option E
  /-- The state a successful move leaves its source in. -/
  moved_from : T → T
  /-- The trait `detail::is_nothrow_swappable<T>::value`. -/
  is_nothrow_swappable : Bool

/-- Counters of the payload operations performed so far. -/
structure payload_log where
  /-- Constructor calls made, including the ones that threw. -/
  ctor_calls : Nat := 0
  /-- Assignment calls made, including the ones that threw. -/
  assign_calls : Nat := 0
  /-- Constructor calls that completed: payload objects brought to life. -/
  constructions : Nat := 0
  /-- Destructor calls. -/
  destructions : Nat := 0
  deriving DecidableEq, Repr

namespace payload_type

variable {T E : Type}

/-- The constructor `T(args...)` building the value `x`. -/
def construct (P : payload_type T E) (log : payload_log) (x : T) : payload_log × Except E T :=
  match P.ctor_throws log.ctor_calls with
  | some e => ({ log with ctor_calls := log.ctor_calls + 1 }, .error e)
  | Option.none =>
    ({ log with ctor_calls := log.ctor_calls + 1, constructions := log.constructions + 1 }, .ok x)

/-- The copy constructor `T(src)`: the new object, the source being left as it is. -/
def copy_construct (P : payload_type T E) (log : payload_log) (src : T) :
    payload_log × Except E T :=
  P.construct log src

/-- The move constructor `T(static_cast<T &&>(src))`: the new object and the source after the
move. -/
def move_construct (P : payload_type T E) (log : payload_log) (src : T) :
    payload_log × Except E (T × T) :=
  match P.ctor_throws log.ctor_calls with
  | some e => ({ log with ctor_calls := log.ctor_calls + 1 }, .error e)
  | Option.none =>
    ({ log with ctor_calls := log.ctor_calls + 1, constructions := log.constructions + 1 },
      .ok (src, P.moved_from src))

/-- The copy assignment `dst = src`: the new state of `dst`. -/
def copy_assign (P : payload_type T E) (log : payload_log) (_dst src : T) :
    payload_log × Except E T :=
  match P.assign_throws log.assign_calls with
  | some e => ({ log with assign_calls := log.assign_calls + 1 }, .error e)
  | Option.none => ({ log with assign_calls := log.assign_calls + 1 }, .ok src)

/-- The move assignment `dst = static_cast<T &&>(src)`: the new states of `dst` and of `src`. -/
def move_assign (P : payload_type T E) (log : payload_log) (_dst src : T) :
    payload_log × Except E (T × T) :=
  match P.assign_throws log.assign_calls with
  | some e => ({ log with assign_calls := log.assign_calls + 1 }, .error e)
  | Option.none => ({ log with assign_calls := log.assign_calls + 1 }, .ok (src, P.moved_from src))

/-- A move that does not throw, by construction or by assignment: the value transferred and
the state the source is left in. -/
def move (P : payload_type T E) (src : T) : T × T :=
  (src, P.moved_from src)

end payload_type

/-- The destructor `~T()` of one payload object. -/
def payload_log.destroy (log : payload_log) : payload_log :=
  { log with destructions := log.destructions + 1 }

/-! ## Strong swap -/

/-- What `strong_swap(allgood, a, b)` leaves behind: the flag `allgood`, the two payloads, the
counters, and the exception it throws, if any. -/
structure strong_swap_result (T E : Type) where
  allgood : Bool
  a : T
  b : T
  log : payload_log
  thrown : Option E

/-- The function `std::swap(a, b)` of the C++ standard library for a nothrow-swappable
payload, which the primary template `strong_swap_impl<T, nothrow>` calls:
`T tmp(std::move(a)); a = std::move(b); b = std::move(tmp);`. None of the three moves throws,
and `tmp` is destroyed at the end. -/
def std_swap {T E : Type} (P : payload_type T E) (log : payload_log) (a b : T) :
    payload_log × T × T :=
  -- T tmp(std::move(a));
  let (tmp, _) := P.move a
  -- a = std::move(b);
  let (a, _) := P.move b
  -- b = std::move(tmp);
  let (b, _) := P.move tmp
  ({ ctor_calls := log.ctor_calls + 1, assign_calls := log.assign_calls + 2,
     constructions := log.constructions + 1, destructions := log.destructions + 1 }, a, b)

/-- The primary template `strong_swap_impl<T, nothrow>`: `allgood = true; swap(a, b);`. -/
def strong_swap_impl_nothrow {T E : Type} (P : payload_type T E) (log : payload_log)
    (a b : T) : strong_swap_result T E :=
  let r := std_swap P log a b
  { allgood := true, a := r.2.1, b := r.2.2, log := r.1, thrown := Option.none }

/-- The specialisation `strong_swap_impl<T, false>`. The temporary `v` is destroyed when the
constructor is left, by `return` or by `throw`. -/
def strong_swap_impl_false {T E : Type} (P : payload_type T E) (log : payload_log) (a b : T) :
    strong_swap_result T E :=
  -- allgood = true; T v(static_cast<T &&>(a));
  match P.move_construct log a with
  | (log, .error e) => { allgood := true, a := a, b := b, log := log, thrown := some e }
  | (log, .ok (v, a)) =>
    -- try { a = static_cast<T &&>(b); }
    match P.move_assign log a b with
    | (log, .error e) =>
      -- catch(...) { try { a = static_cast<T &&>(v); } catch(...) { allgood = false; } throw; }
      match P.move_assign log a v with
      | (log, .ok (a, _)) =>
        { allgood := true, a := a, b := b, log := log.destroy, thrown := some e }
      | (log, .error _) =>
        { allgood := false, a := a, b := b, log := log.destroy, thrown := some e }
    | (log, .ok (a, b)) =>
      -- try { b = static_cast<T &&>(v); }
      match P.move_assign log b v with
      | (log, .ok (b, _)) =>
        { allgood := true, a := a, b := b, log := log.destroy, thrown := Option.none }
      | (log, .error e) =>
        -- catch(...) { try { b = static_cast<T &&>(a); a = static_cast<T &&>(v); }
        --              catch(...) { allgood = false; } throw; }
        match P.move_assign log b a with
        | (log, .error _) =>
          { allgood := false, a := a, b := b, log := log.destroy, thrown := some e }
        | (log, .ok (b, a)) =>
          match P.move_assign log a v with
          | (log, .ok (a, _)) =>
            { allgood := true, a := a, b := b, log := log.destroy, thrown := some e }
          | (log, .error _) =>
            { allgood := false, a := a, b := b, log := log.destroy, thrown := some e }

/-- The function `strong_swap(allgood, a, b)`: it instantiates
`strong_swap_impl<T, is_nothrow_swappable<T>::value>`. -/
def strong_swap {T E : Type} (P : payload_type T E) (log : payload_log) (a b : T) :
    strong_swap_result T E :=
  if P.is_nothrow_swappable then strong_swap_impl_nothrow P log a b
  else strong_swap_impl_false P log a b

/-! ## The non-trivial storage cell -/

/-- The cell `value_storage_nontrivial<T>`. The anonymous union is `some x` while the member
`_value` is alive and holds `x`, and `Option.none` while it is not (`_empty`). -/
structure value_storage_nontrivial (T : Type) where
  _value : Option T := Option.none
  _status : status_bitfield_type := {}
  deriving DecidableEq, Repr

/-- What a constructor that reads a source cell leaves behind: the counters, the source cell,
and the new cell or, when the payload constructor threw, the exception (no cell is created). -/
structure construct_result (T E : Type) where
  log : payload_log
  o : value_storage_nontrivial T
  /-- The tag of the cell under construction while the payload constructor ran, if it ran. -/
  status_during_construction : Option status_bitfield_type
  result : Except E (value_storage_nontrivial T)

/-- What a member function of a cell that takes a second cell leaves behind: the counters, the
two cells, and the exception it throws, if any. -/
structure binary_result (T E : Type) where
  log : payload_log
  self : value_storage_nontrivial T
  o : value_storage_nontrivial T
  thrown : Option E

namespace value_storage_nontrivial

variable {T E : Type}

/-- The constructor `value_storage_nontrivial(in_place_type_t<value_type>, Args &&... args)`:
`_value(args...)`, then `_status(status::have_value)`. -/
def in_place (P : payload_type T E) (log : payload_log) (x : T) :
    payload_log × Except E (value_storage_nontrivial T) :=
  match P.construct log x with
  | (log, .error e) => (log, .error e)
  | (log, .ok x) =>
    (log, .ok { _value := some x, _status := { status_value := status.have_value.code } })

/-- The move constructor `value_storage_nontrivial(value_storage_nontrivial &&o)`. The result
is `Option.none` when the code reads a payload that is not alive (undefined behaviour). -/
def move_constructor (P : payload_type T E) (log : payload_log)
    (o : value_storage_nontrivial T) : Option (construct_result T E) :=
  -- : _status(o._status)
  let _status := o._status
  if _status.have_value then
    -- this->_status.set_have_value(false);
    let _status := _status.set_have_value false
    -- new(&_value) value_type(static_cast<value_type &&>(o._value));
    match o._value with
    | Option.none => Option.none
    | some y =>
      match P.move_construct log y with
      | (log, .error e) =>
        some { log := log, o := o, status_during_construction := some _status,
               result := .error e }
      | (log, .ok (x, y)) =>
        -- _status = o._status;
        some { log := log, o := { o with _value := some y },
               status_during_construction := some _status,
               result := .ok { _value := some x, _status := o._status } }
  else
    some { log := log, o := o, status_during_construction := Option.none,
           result := .ok { _value := Option.none, _status := _status } }

/-- The copy constructor `value_storage_nontrivial(const value_storage_nontrivial &o)`. The
result is `Option.none` when the code reads a payload that is not alive. -/
def copy_constructor (P : payload_type T E) (log : payload_log)
    (o : value_storage_nontrivial T) : Option (construct_result T E) :=
  -- : _status(o._status)
  let _status := o._status
  if _status.have_value then
    -- this->_status.set_have_value(false);
    let _status := _status.set_have_value false
    -- new(&_value) value_type(o._value);
    match o._value with
    | Option.none => Option.none
    | some y =>
      match P.copy_construct log y with
      | (log, .error e) =>
        some { log := log, o := o, status_during_construction := some _status,
               result := .error e }
      | (log, .ok x) =>
        -- _status = o._status;
        some { log := log, o := o, status_during_construction := some _status,
               result := .ok { _value := some x, _status := o._status } }
  else
    some { log := log, o := o, status_during_construction := Option.none,
           result := .ok { _value := Option.none, _status := _status } }

/-- The destructor `~value_storage_nontrivial()`: the counters and the storage it leaves. The
result is `Option.none` when the code destroys a payload that is not alive. -/
def destructor (log : payload_log) (c : value_storage_nontrivial T) :
    Option (payload_log × value_storage_nontrivial T) :=
  if c._status.have_value then
    -- this->_value.~value_type(); this->_status.set_have_value(false);
    match c._value with
    | Option.none => Option.none
    | some _ =>
      some (log.destroy, { _value := Option.none, _status := c._status.set_have_value false })
  else
    some (log, c)

/-- The destructor of the local guard object `_` of `swap`: when `all_good` is false, both
tags get the lost-consistency flag. -/
def swap_guard (all_good : Bool) (a b : status_bitfield_type) :
    status_bitfield_type × status_bitfield_type :=
  if !all_good then (a.set_have_lost_consistency true, b.set_have_lost_consistency true)
  else (a, b)

/-- The member function `swap(value_storage_nontrivial &o)`. The result is `Option.none` when
the code reads a payload that is not alive. -/
def swap (P : payload_type T E) (log : payload_log) (c o : value_storage_nontrivial T) :
    Option (binary_result T E) :=
  if !c._status.have_value && !o._status.have_value then
    -- swap(_status, o._status); return;
    some { log := log, self := { c with _status := o._status },
           o := { o with _status := c._status }, thrown := Option.none }
  else if c._status.have_value && o._status.have_value then
    match c._value, o._value with
    | some x, some y =>
      -- strong_swap(_.all_good, _value, o._value);
      let r := strong_swap P log x y
      match r.thrown with
      | some e =>
        -- the guard's destructor runs while the exception propagates
        let g := swap_guard r.allgood c._status o._status
        some { log := r.log, self := { _value := some r.a, _status := g.1 },
               o := { _value := some r.b, _status := g.2 }, thrown := some e }
      | Option.none =>
        -- swap(_status, o._status); return;  and then the guard's destructor
        let g := swap_guard r.allgood o._status c._status
        some { log := r.log, self := { _value := some r.a, _status := g.1 },
               o := { _value := some r.b, _status := g.2 }, thrown := Option.none }
    | _, _ => Option.none
  else if c._status.have_value then
    -- new(&o._value) value_type(static_cast<value_type &&>(_value));
    match c._value with
    | Option.none => Option.none
    | some x =>
      match P.move_construct log x with
      | (log, .error e) => some { log := log, self := c, o := o, thrown := some e }
      | (log, .ok (y, _)) =>
        -- this->_value.~value_type(); swap(_status, o._status);
        some { log := log.destroy, self := { _value := Option.none, _status := o._status },
               o := { _value := some y, _status := c._status }, thrown := Option.none }
  else
    -- new(&_value) value_type(static_cast<value_type &&>(o._value));
    match o._value with
    | Option.none => Option.none
    | some y =>
      match P.move_construct log y with
      | (log, .error e) => some { log := log, self := c, o := o, thrown := some e }
      | (log, .ok (x, _)) =>
        -- o._value.~value_type(); swap(_status, o._status);
        some { log := log.destroy, self := { _value := some x, _status := o._status },
               o := { _value := Option.none, _status := c._status }, thrown := Option.none }

end value_storage_nontrivial

/-! ## Synthesized assignment of the non-trivial cell -/

namespace value_storage_nontrivial_move_assignment

variable {T E : Type}

/-- The move assignment `operator=(value_storage_nontrivial_move_assignment &&o)` of the layer
`value_storage_nontrivial_move_assignment<Base>`, for two distinct cells. The result is
`Option.none` when the code reads or destroys a payload that is not alive. -/
def assign (P : payload_type T E) (log : payload_log) (c o : value_storage_nontrivial T) :
    Option (binary_result T E) :=
  if c._status.have_value && o._status.have_value then
    -- this->_value = static_cast<value_type &&>(o._value);
    match c._value, o._value with
    | some x, some y =>
      match P.move_assign log x y with
      | (log, .error e) => some { log := log, self := c, o := o, thrown := some e }
      | (log, .ok (x, y)) =>
        -- this->_status = o._status;
        some { log := log, self := { _value := some x, _status := o._status },
               o := { o with _value := some y }, thrown := Option.none }
    | _, _ => Option.none
  else if c._status.have_value && !o._status.have_value then
    -- this->_value.~value_type();
    match c._value with
    | Option.none => Option.none
    | some _ =>
      -- this->_status = o._status;
      some { log := log.destroy, self := { _value := Option.none, _status := o._status },
             o := o, thrown := Option.none }
  else if !c._status.have_value && o._status.have_value then
    -- new(&this->_value) value_type(static_cast<value_type &&>(o._value));
    match o._value with
    | Option.none => Option.none
    | some y =>
      match P.move_construct log y with
      | (log, .error e) => some { log := log, self := c, o := o, thrown := some e }
      | (log, .ok (x, y)) =>
        -- this->_status = o._status;
        some { log := log, self := { _value := some x, _status := o._status },
               o := { o with _value := some y }, thrown := Option.none }
  else
    -- this->_status = o._status;
    some { log := log, self := { c with _status := o._status }, o := o,
           thrown := Option.none }

end value_storage_nontrivial_move_assignment

namespace value_storage_nontrivial_copy_assignment

variable {T E : Type}

/-- The copy assignment `operator=(const value_storage_nontrivial_copy_assignment &o)` of the
layer `value_storage_nontrivial_copy_assignment<Base>`, for two distinct cells. The result is
`Option.none` when the code reads or destroys a payload that is not alive. -/
def assign (P : payload_type T E) (log : payload_log) (c o : value_storage_nontrivial T) :
    Option (binary_result T E) :=
  if c._status.have_value && o._status.have_value then
    -- this->_value = o._value;
    match c._value, o._value with
    | some x, some y =>
      match P.copy_assign log x y with
      | (log, .error e) => some { log := log, self := c, o := o, thrown := some e }
      | (log, .ok x) =>
        -- this->_status = o._status;
        some { log := log, self := { _value := some x, _status := o._status }, o := o,
               thrown := Option.none }
    | _, _ => Option.none
  else if c._status.have_value && !o._status.have_value then
    -- this->_value.~value_type();
    match c._value with
    | Option.none => Option.none
    | some _ =>
      -- this->_status = o._status;
      some { log := log.destroy, self := { _value := Option.none, _status := o._status },
             o := o, thrown := Option.none }
  else if !c._status.have_value && o._status.have_value then
    -- new(&this->_value) value_type(o._value);
    match o._value with
    | Option.none => Option.none
    | some y =>
      match P.copy_construct log y with
      | (log, .error e) => some { log := log, self := c, o := o, thrown := some e }
      | (log, .ok x) =>
        -- this->_status = o._status;
        some { log := log, self := { _value := some x, _status := o._status }, o := o,
               thrown := Option.none }
  else
    -- this->_status = o._status;
    some { log := log, self := { c with _status := o._status }, o := o,
           thrown := Option.none }

end value_storage_nontrivial_copy_assignment

/-! ## The trivial storage cell -/

/-- The cell `value_storage_trivial<T>`, used when the payload is trivially copyable. The
anonymous union is `some x` while the member `_value` is the active one and holds `x`, and
`Option.none` while `_empty` is. -/
structure value_storage_trivial (T : Type) where
  _value : Option T := Option.none
  _status : status_bitfield_type := {}
  deriving DecidableEq, Repr

namespace value_storage_trivial

variable {T U E : Type}

/-- The constructor `value_storage_trivial(in_place_type_t<value_type>, Args &&... args)`:
`_value(args...)`, then `_status(status::have_value)`. -/
def in_place (P : payload_type T E) (log : payload_log) (x : T) :
    payload_log × Except E (value_storage_trivial T) :=
  match P.construct log x with
  | (log, .error e) => (log, .error e)
  | (log, .ok x) =>
    (log, .ok { _value := some x, _status := { status_value := status.have_value.code } })

/-- The defaulted copy constructor `value_storage_trivial(const value_storage_trivial &)`:
a member-wise copy of the union and of the tag. -/
def copy_constructor (o : value_storage_trivial T) : value_storage_trivial T :=
  { _value := o._value, _status := o._status }

/-- The defaulted move constructor `value_storage_trivial(value_storage_trivial &&)`: for a
trivially copyable payload a member-wise copy; the source is left as it is. -/
def move_constructor (o : value_storage_trivial T) : value_storage_trivial T :=
  { _value := o._value, _status := o._status }

/-- The defaulted copy assignment `operator=(const value_storage_trivial &)`: the new state of
the cell assigned to. -/
def copy_assignment (_c o : value_storage_trivial T) : value_storage_trivial T :=
  { _value := o._value, _status := o._status }

/-- The defaulted move assignment `operator=(value_storage_trivial &&)`: the new state of the
cell assigned to; the source is left as it is. -/
def move_assignment (_c o : value_storage_trivial T) : value_storage_trivial T :=
  { _value := o._value, _status := o._status }

/-- The member function `swap(value_storage_trivial &o)`: the new states of `*this` and of
`o`. -/
def swap (c o : value_storage_trivial T) : value_storage_trivial T × value_storage_trivial T :=
  -- auto temp = static_cast<value_storage_trivial &&>(*this);
  let temp := move_constructor c
  -- *this = static_cast<value_storage_trivial &&>(o);
  let c := move_assignment c o
  -- o = static_cast<value_storage_trivial &&>(temp);
  let o := move_assignment o temp
  (c, o)

/-- What a converting constructor leaves behind: the counters, the payload of the source cell
afterwards, and the new cell or, when the payload constructor threw, the exception. -/
structure converting_result (T U E : Type) where
  log : payload_log
  o_value : Option U
  result : Except E (value_storage_trivial T)

/-- The body shared by the two converting constructors of `value_storage_trivial<T>` from a
`value_storage_trivial<U>`: the delegation
`value_storage_trivial(o._status.have_value() ? value_storage_trivial(in_place_type<value_type>,
<o._value>) : value_storage_trivial())` followed by `_status = o._status;`. The conversion
`conv` gives the payload built from the source's and the source's payload afterwards; moving
the temporary cell is a member-wise copy. The result is `Option.none` when the code reads a
payload that is not there. -/
def converting (P : payload_type T E) (log : payload_log) (conv : U → T × U)
    (o : value_storage_trivial U) : Option (converting_result T U E) :=
  if o._status.have_value then
    match o._value with
    | Option.none => Option.none
    | some u =>
      match in_place P log (conv u).1 with
      | (log, .error e) => some { log := log, o_value := some u, result := .error e }
      | (log, .ok temp) =>
        -- _status = o._status;
        some { log := log, o_value := some (conv u).2,
               result := .ok { move_constructor temp with _status := o._status } }
  else
    -- _status = o._status;
    some { log := log, o_value := o._value,
           result := .ok { move_constructor ({} : value_storage_trivial T) with
                           _status := o._status } }

/-- The converting constructor `value_storage_trivial(const value_storage_trivial<U> &o)`,
`conv` being the constructor `T(const U &)`. -/
def converting_copy_constructor (P : payload_type T E) (log : payload_log) (conv : U → T)
    (o : value_storage_trivial U) : Option (converting_result T U E) :=
  converting P log (fun u => (conv u, u)) o

/-- The converting constructor `value_storage_trivial(value_storage_trivial<U> &&o)`, `conv`
being the constructor `T(U &&)`: the new payload and the state the source payload is left
in. -/
def converting_move_constructor (P : payload_type T E) (log : payload_log) (conv : U → T × U)
    (o : value_storage_trivial U) : Option (converting_result T U E) :=
  converting P log conv o

end value_storage_trivial

/-! ## Converting constructors of the non-trivial cell -/

namespace value_storage_nontrivial

variable {T U E : Type}

/-- What a converting constructor leaves behind: the counters, the payload of the source cell
afterwards, and the new cell or, when a payload constructor threw, the exception. -/
structure converting_result (T U E : Type) where
  log : payload_log
  o_value : Option U
  result : Except E (value_storage_nontrivial T)

/-- The initialisation of the cell under construction from the temporary cell of the
delegation. With `copy_elision` the temporary is the cell; without it the cell is built by
the move constructor from the temporary, which is then destroyed. -/
def from_temporary (P : payload_type T E) (copy_elision : Bool) (log : payload_log)
    (temp : value_storage_nontrivial T) :
    Option (payload_log × Except E (value_storage_nontrivial T)) :=
  if copy_elision then some (log, .ok temp)
  else
    match move_constructor P log temp with
    | Option.none => Option.none
    | some r =>
      match destructor r.log r.o with
      | Option.none => Option.none
      | some (log, _) => some (log, r.result)

/-- The body shared by the four converting constructors of `value_storage_nontrivial<T>` from
a cell of payload `U` with tag `o_status` and union `o_value`: the delegation
`value_storage_nontrivial(o._status.have_value() ?
value_storage_nontrivial(in_place_type<value_type>, <o._value>) : value_storage_nontrivial())`
followed by `_status = o._status;`. The conversion `conv` gives the payload built from the
source's and the source's payload afterwards. The result is `Option.none` when the code reads
a payload that is not alive. -/
def converting (P : payload_type T E) (copy_elision : Bool) (log : payload_log)
    (conv : U → T × U) (o_status : status_bitfield_type) (o_value : Option U) :
    Option (converting_result T U E) :=
  if o_status.have_value then
    match o_value with
    | Option.none => Option.none
    | some u =>
      match in_place P log (conv u).1 with
      | (log, .error e) => some { log := log, o_value := some u, result := .error e }
      | (log, .ok temp) =>
        match from_temporary P copy_elision log temp with
        | Option.none => Option.none
        | some (log, .error e) =>
          some { log := log, o_value := some (conv u).2, result := .error e }
        | some (log, .ok c) =>
          -- _status = o._status;
          some { log := log, o_value := some (conv u).2,
                 result := .ok { c with _status := o_status } }
  else
    match from_temporary P copy_elision log ({} : value_storage_nontrivial T) with
    | Option.none => Option.none
    | some (log, .error e) => some { log := log, o_value := o_value, result := .error e }
    | some (log, .ok c) =>
      -- _status = o._status;
      some { log := log, o_value := o_value, result := .ok { c with _status := o_status } }

/-- The converting constructor `value_storage_nontrivial(const value_storage_nontrivial<U> &o)`,
`conv` being the constructor `T(const U &)`. -/
def converting_copy_constructor (P : payload_type T E) (copy_elision : Bool)
    (log : payload_log) (conv : U → T) (o : value_storage_nontrivial U) :
    Option (converting_result T U E) :=
  converting P copy_elision log (fun u => (conv u, u)) o._status o._value

/-- The converting constructor `value_storage_nontrivial(const value_storage_trivial<U> &o)`,
`conv` being the constructor `T(const U &)`. -/
def converting_copy_constructor_trivial (P : payload_type T E) (copy_elision : Bool)
    (log : payload_log) (conv : U → T) (o : value_storage_trivial U) :
    Option (converting_result T U E) :=
  converting P copy_elision log (fun u => (conv u, u)) o._status o._value

/-- The converting constructor `value_storage_nontrivial(value_storage_nontrivial<U> &&o)`,
`conv` being the constructor `T(U &&)`. -/
def converting_move_constructor (P : payload_type T E) (copy_elision : Bool)
    (log : payload_log) (conv : U → T × U) (o : value_storage_nontrivial U) :
    Option (converting_result T U E) :=
  converting P copy_elision log conv o._status o._value

/-- The converting constructor `value_storage_nontrivial(value_storage_trivial<U> &&o)`,
`conv` being the constructor `T(U &&)`. -/
def converting_move_constructor_trivial (P : payload_type T E) (copy_elision : Bool)
    (log : payload_log) (conv : U → T × U) (o : value_storage_trivial U) :
    Option (converting_result T U E) :=
  converting P copy_elision log conv o._status o._value

end value_storage_nontrivial

/-! ## Selection of the storage type

The alias templates `value_storage_select_*` compute the storage type of a payload from its
type traits. A storage type is one of the two cells under a stack of layers. A special member
function is available on a storage type when the topmost layer saying something about it does
not delete it: a layer's `= delete` removes it, a user-provided definition supplies it, and
`= default` or silence passes on what the base has. The rules of C++ for implicitly declared
members and for overload resolution between copy and move are not modelled. -/

/-- The type traits of the payload `devoid<T>` that the selection reads. -/
structure payload_traits where
  is_trivially_copyable : Bool
  is_move_constructible : Bool
  is_copy_constructible : Bool
  is_trivially_move_assignable : Bool
  is_move_assignable : Bool
  is_trivially_copy_assignable : Bool
  is_copy_assignable : Bool
  deriving DecidableEq, Repr

/-- The storage types the selection can assemble: a cell, or a layer template applied to a
base. -/
inductive storage_type where
  | value_storage_trivial
  | value_storage_nontrivial
  | value_storage_delete_copy_constructor (Base : storage_type)
  | value_storage_delete_copy_assignment (Base : storage_type)
  | value_storage_delete_move_assignment (Base : storage_type)
  | value_storage_delete_move_constructor (Base : storage_type)
  | value_storage_nontrivial_move_assignment (Base : storage_type)
  | value_storage_nontrivial_copy_assignment (Base : storage_type)
  deriving DecidableEq, Repr

/-- The alias `std::conditional_t<B, X, Y>`. -/
def conditional_t {α : Type} (B : Bool) (X Y : α) : α :=
  if B then X else Y

/-- The alias `value_storage_select_trivality<T>`. -/
def value_storage_select_trivality (T : payload_traits) : storage_type :=
  conditional_t T.is_trivially_copyable .value_storage_trivial .value_storage_nontrivial

/-- The alias `value_storage_select_move_constructor<T>`. -/
def value_storage_select_move_constructor (T : payload_traits) : storage_type :=
  conditional_t T.is_move_constructible (value_storage_select_trivality T)
    (.value_storage_delete_move_constructor (value_storage_select_trivality T))

/-- The alias `value_storage_select_copy_constructor<T>`. -/
def value_storage_select_copy_constructor (T : payload_traits) : storage_type :=
  conditional_t T.is_copy_constructible (value_storage_select_move_constructor T)
    (.value_storage_delete_copy_constructor (value_storage_select_move_constructor T))

/-- The alias `value_storage_select_move_assignment<T>`. -/
def value_storage_select_move_assignment (T : payload_traits) : storage_type :=
  conditional_t T.is_trivially_move_assignable (value_storage_select_copy_constructor T)
    (conditional_t T.is_move_assignable
      (.value_storage_nontrivial_move_assignment (value_storage_select_copy_constructor T))
      (.value_storage_delete_copy_assignment (value_storage_select_copy_constructor T)))

/-- The alias `value_storage_select_copy_assignment<T>`. -/
def value_storage_select_copy_assignment (T : payload_traits) : storage_type :=
  conditional_t T.is_trivially_copy_assignable (value_storage_select_move_assignment T)
    (conditional_t T.is_copy_assignable
      (.value_storage_nontrivial_copy_assignment (value_storage_select_move_assignment T))
      (.value_storage_delete_copy_assignment (value_storage_select_move_assignment T)))

/-- The alias `value_storage_select_impl<T>`. -/
def value_storage_select_impl (T : payload_traits) : storage_type :=
  value_storage_select_copy_assignment T

/-- The four special member functions the layers are about. -/
inductive special_member where
  | copy_constructor
  | move_constructor
  | copy_assignment
  | move_assignment
  deriving DecidableEq, Repr, Fintype

/-- What a class says about one of its special member functions. -/
inductive declaration where
  /-- The member is declared `= delete`. -/
  | deleted
  /-- The member is declared `= default`. -/
  | defaulted
  /-- The member is declared with a body. -/
  | user_provided
  /-- The class does not declare the member. -/
  | not_declared
  deriving DecidableEq, Repr

/-- What the outermost class of a storage type declares for a special member function, read
off the class definitions. -/
def storage_type.declares : storage_type → special_member → declaration
  | .value_storage_trivial, _ => .defaulted
  | .value_storage_nontrivial, .copy_constructor => .user_provided
  | .value_storage_nontrivial, .move_constructor => .user_provided
  | .value_storage_nontrivial, .copy_assignment => .defaulted
  | .value_storage_nontrivial, .move_assignment => .defaulted
  | .value_storage_delete_copy_constructor _, .copy_constructor => .deleted
  | .value_storage_delete_copy_constructor _, .move_constructor => .defaulted
  | .value_storage_delete_copy_constructor _, _ => .not_declared
  | .value_storage_delete_copy_assignment _, .copy_constructor => .defaulted
  | .value_storage_delete_copy_assignment _, .move_constructor => .defaulted
  | .value_storage_delete_copy_assignment _, .copy_assignment => .deleted
  | .value_storage_delete_copy_assignment _, .move_assignment => .defaulted
  | .value_storage_delete_move_assignment _, .copy_constructor => .defaulted
  | .value_storage_delete_move_assignment _, .move_constructor => .defaulted
  | .value_storage_delete_move_assignment _, .copy_assignment => .defaulted
  | .value_storage_delete_move_assignment _, .move_assignment => .deleted
  | .value_storage_delete_move_constructor _, .copy_constructor => .defaulted
  | .value_storage_delete_move_constructor _, .move_constructor => .deleted
  | .value_storage_delete_move_constructor _, _ => .not_declared
  | .value_storage_nontrivial_move_assignment _, .copy_constructor => .defaulted
  | .value_storage_nontrivial_move_assignment _, .move_constructor => .defaulted
  | .value_storage_nontrivial_move_assignment _, .copy_assignment => .defaulted
  | .value_storage_nontrivial_move_assignment _, .move_assignment => .user_provided
  | .value_storage_nontrivial_copy_assignment _, .copy_constructor => .defaulted
  | .value_storage_nontrivial_copy_assignment _, .move_constructor => .defaulted
  | .value_storage_nontrivial_copy_assignment _, .copy_assignment => .user_provided
  | .value_storage_nontrivial_copy_assignment _, .move_assignment => .defaulted

/-- Whether the payload itself supports a special member function. -/
def payload_traits.supports (T : payload_traits) : special_member → Bool
  | .copy_constructor => T.is_copy_constructible
  | .move_constructor => T.is_move_constructible
  | .copy_assignment => T.is_copy_assignable
  | .move_assignment => T.is_move_assignable

/-- Whether the payload's special member function is one a defaulted member of a class with
the payload in a union can use: for `value_storage_trivial` the payload is trivially copyable
and what it supports is trivial; for `value_storage_nontrivial` the defaulted assignment
operators exist only for a trivially assignable payload (`if reaches here, copy assignment is
trivial`). -/
def payload_traits.defaultable (T : payload_traits) (trivial_cell : Bool) :
    special_member → Bool
  | .copy_constructor => T.is_copy_constructible
  | .move_constructor => T.is_move_constructible
  | .copy_assignment => if trivial_cell then T.is_copy_assignable else T.is_trivially_copy_assignable
  | .move_assignment => if trivial_cell then T.is_move_assignable else T.is_trivially_move_assignable

/-- The base of a layer, if the storage type is a layer. -/
def storage_type.base : storage_type → Option storage_type
  | .value_storage_trivial => Option.none
  | .value_storage_nontrivial => Option.none
  | .value_storage_delete_copy_constructor Base => some Base
  | .value_storage_delete_copy_assignment Base => some Base
  | .value_storage_delete_move_assignment Base => some Base
  | .value_storage_delete_move_constructor Base => some Base
  | .value_storage_nontrivial_move_assignment Base => some Base
  | .value_storage_nontrivial_copy_assignment Base => some Base

/-- Whether a special member function is available on a storage type assembled for a payload
with traits `T`, as the declarations written in the classes say: the topmost class that
declares the member decides, `= delete` removing it, a body supplying it and `= default`
passing on what the base has, down to the cell, whose defaulted member exists when the
payload's does. What C++ adds without a declaration is left out, so this is not the value of
`std::is_copy_assignable` and its like on the assembled class in two situations: under a layer
that declares a move constructor and no assignment operator (there C++ deletes the copy
assignment and declares no move assignment), and where a defaulted move member that is defined
as deleted lets an rvalue fall back on the copy member. -/
def storage_type.available (T : payload_traits) : storage_type → special_member → Bool
  | .value_storage_trivial, m =>
    match storage_type.value_storage_trivial.declares m with
    | .deleted => false
    | .user_provided => true
    | _ => T.defaultable true m
  | .value_storage_nontrivial, m =>
    match storage_type.value_storage_nontrivial.declares m with
    | .deleted => false
    | .user_provided => true
    | _ => T.defaultable false m
  | .value_storage_delete_copy_constructor Base, m =>
    match (storage_type.value_storage_delete_copy_constructor Base).declares m with
    | .deleted => false
    | .user_provided => true
    | _ => Base.available T m
  | .value_storage_delete_copy_assignment Base, m =>
    match (storage_type.value_storage_delete_copy_assignment Base).declares m with
    | .deleted => false
    | .user_provided => true
    | _ => Base.available T m
  | .value_storage_delete_move_assignment Base, m =>
    match (storage_type.value_storage_delete_move_assignment Base).declares m with
    | .deleted => false
    | .user_provided => true
    | _ => Base.available T m
  | .value_storage_delete_move_constructor Base, m =>
    match (storage_type.value_storage_delete_move_constructor Base).declares m with
    | .deleted => false
    | .user_provided => true
    | _ => Base.available T m
  | .value_storage_nontrivial_move_assignment Base, m =>
    match (storage_type.value_storage_nontrivial_move_assignment Base).declares m with
    | .deleted => false
    | .user_provided => true
    | _ => Base.available T m
  | .value_storage_nontrivial_copy_assignment Base, m =>
    match (storage_type.value_storage_nontrivial_copy_assignment Base).declares m with
    | .deleted => false
    | .user_provided => true
    | _ => Base.available T m

/-! ## The enum-comparison form of the getters -/

namespace status_bitfield_type

/-- The comparison `status_value == status::s` of the enum-comparison getters. -/
def is_status (t : status_bitfield_type) (s : status) : Bool :=
  t.status_value == s.code

/-- The enum-comparison form of `have_error()`. -/
def have_error_enum (t : status_bitfield_type) : Bool :=
  t.is_status .have_error
    || t.is_status .have_error_exception
    || t.is_status .have_error_lost_consistency
    || t.is_status .have_error_exception_lost_consistency
    || t.is_status .have_error_error_is_errno
    || t.is_status .have_error_exception_error_is_errno
    || t.is_status .have_error_lost_consistency_error_is_errno
    || t.is_status .have_error_exception_lost_consistency_error_is_errno

/-- The enum-comparison form of `have_error_is_errno()`. -/
def have_error_is_errno_enum (t : status_bitfield_type) : Bool :=
  t.is_status .have_error_error_is_errno
    || t.is_status .have_error_exception_error_is_errno
    || t.is_status .have_error_lost_consistency_error_is_errno
    || t.is_status .have_error_exception_lost_consistency_error_is_errno

/-- The constructor `status_bitfield_type(status v)`: `status_value(v)`, the spare storage
keeping its default member initialiser `0`. -/
def from_status (v : status) : status_bitfield_type :=
  { status_value := v.code }

/-- The constructor `status_bitfield_type(status v, uint16_t s)`: `status_value(v)`,
`spare_storage_value(s)`. -/
def from_status_and_spare (v : status) (s : Nat) : status_bitfield_type :=
  { status_value := v.code, spare_storage_value := s }

end status_bitfield_type

/-- The single-flag bit mask a bitwise getter or setter uses: the enumerator named after the
flag alone, cast to `uint16_t`. -/
def flag.mask : flag → Nat
  | .value => status.have_value.code
  | .error => status.have_error.code
  | .exception => status.have_exception.code
  | .error_is_errno => status.have_error_is_errno.code
  | .lost_consistency => status.have_lost_consistency.code
  | .moved_from => status.have_moved_from.code

/-- The flags an enumerator's name lists, read off the name word by word. -/
def status.names : status → flag → Bool
  | .none, _ => false
  | .have_value, X => X = .value
  | .have_error, X => X = .error
  | .have_exception, X => X = .exception
  | .have_error_exception, X => X = .error || X = .exception
  | .have_lost_consistency, X => X = .lost_consistency
  | .have_value_lost_consistency, X => X = .value || X = .lost_consistency
  | .have_error_lost_consistency, X => X = .error || X = .lost_consistency
  | .have_exception_lost_consistency, X => X = .exception || X = .lost_consistency
  | .have_error_exception_lost_consistency, X =>
    X = .error || X = .exception || X = .lost_consistency
  | .have_error_is_errno, X => X = .error_is_errno
  | .have_error_error_is_errno, X => X = .error || X = .error_is_errno
  | .have_error_exception_error_is_errno, X =>
    X = .error || X = .exception || X = .error_is_errno
  | .have_error_lost_consistency_error_is_errno, X =>
    X = .error || X = .lost_consistency || X = .error_is_errno
  | .have_error_exception_lost_consistency_error_is_errno, X =>
    X = .error || X = .exception || X = .lost_consistency || X = .error_is_errno
  | .have_moved_from, X => X = .moved_from

/-! ## Construction of a cell from a tag, by default, and from a void-valued cell -/

namespace value_storage_trivial

variable {T E : Type}

/-- The default constructor `value_storage_trivial()`: `_empty{}`, the tag keeping its default
member initialisers. -/
def default_constructor : value_storage_trivial T :=
  { _value := Option.none, _status := {} }

/-- The constructor `value_storage_trivial(status_bitfield_type status)`: `_empty()`,
`_status(status)`. -/
def from_status (status : status_bitfield_type) : value_storage_trivial T :=
  { _value := Option.none, _status := status }

/-- The from-void constructor `value_storage_trivial(const void_value_storage_trivial &o)`:
`_value()`, then `_status(o._status)`; `default_value` is the value-initialised payload. The
payload is constructed whether or not `o` holds a value. -/
def from_void (P : payload_type T E) (log : payload_log) (default_value : T)
    (o : value_storage_trivial Unit) : payload_log × Except E (value_storage_trivial T) :=
  match P.construct log default_value with
  | (log, .error e) => (log, .error e)
  | (log, .ok x) => (log, .ok { _value := some x, _status := o._status })

end value_storage_trivial

namespace value_storage_nontrivial

variable {T E : Type}

/-- The default constructor `value_storage_nontrivial()`: `_empty{}`, the tag keeping its
default member initialisers. -/
def default_constructor : value_storage_nontrivial T :=
  { _value := Option.none, _status := {} }

/-- The constructor `value_storage_nontrivial(status_bitfield_type status)`: `_empty()`,
`_status(status)`. -/
def from_status (status : status_bitfield_type) : value_storage_nontrivial T :=
  { _value := Option.none, _status := status }

/-- What the from-void constructor leaves behind: the counters, the tag of the cell under
construction while the payload constructor ran, if it ran, and the new cell or, when the
payload constructor threw, the exception. -/
structure from_void_result (T E : Type) where
  log : payload_log
  status_during_construction : Option status_bitfield_type
  result : Except E (value_storage_nontrivial T)

/-- The from-void constructor `value_storage_nontrivial(const value_storage_trivial<void> &o)`;
`default_value` is the default-initialised payload of `new(&_value) value_type`. -/
def from_void (P : payload_type T E) (log : payload_log) (default_value : T)
    (o : value_storage_trivial Unit) : from_void_result T E :=
  -- : _status(o._status)
  let _status := o._status
  if _status.have_value then
    -- this->_status.set_have_value(false);
    let _status := _status.set_have_value false
    -- new(&_value) value_type;
    match P.construct log default_value with
    | (log, .error e) =>
      { log := log, status_during_construction := some _status, result := .error e }
    | (log, .ok x) =>
      -- _status = o._status;
      { log := log, status_during_construction := some _status,
        result := .ok { _value := some x, _status := o._status } }
  else
    { log := log, status_during_construction := Option.none,
      result := .ok { _value := Option.none, _status := _status } }

end value_storage_nontrivial

/-! ## The ring buffer of the documented hook example

The snippet `doc/src/snippets/error_code_extended.cpp` keeps sixteen slots of extended error
information per thread. A slot is identified here by its index in `slots[16]`, and a result or
outcome by its tag. -/

/-- The conversion of an `int` to `uint16_t`. -/
def int_to_uint16 (n : Int) : Nat := (n % 65536).toNat

/-- The struct `mythreadlocaldata_t`: the counter `current`, a `uint16_t`. -/
structure mythreadlocaldata_t where
  current : Nat := 0
  deriving DecidableEq, Repr

namespace mythreadlocaldata_t

/-- The member function `next()`: `return slots[(current++) % 16];`, as the index of the slot
returned and the state afterwards. -/
def next (d : mythreadlocaldata_t) : Nat × mythreadlocaldata_t :=
  (d.current % 16, { current := to_uint16 (d.current + 1) })

/-- The member function `get(idx)`: `if(idx - current >= 16) return nullptr;
return slots + (idx % 16);`. Both operands of the subtraction are `uint16_t` and are promoted
to `int`. `Option.none` is `nullptr`. -/
def get (d : mythreadlocaldata_t) (idx : Nat) : Option Nat :=
  if (idx : Int) - (d.current : Int) ≥ 16 then Option.none else some (idx % 16)

/-- The state after `n` calls of `next()`. -/
def next_calls : Nat → mythreadlocaldata_t → mythreadlocaldata_t
  | 0, d => d
  | n + 1, d => next_calls n d.next.2

end mythreadlocaldata_t

/-- Modelled from the spec: `hooks::set_spare_storage(res, v)`, which is not in the sources at
hand; it takes a `uint16_t` and stores it in the spare storage of the tag. -/
def set_spare_storage (res : status_bitfield_type) (v : Int) : status_bitfield_type :=
  { res with spare_storage_value := int_to_uint16 v }

/-- Modelled from the spec: `hooks::spare_storage(res)`, which is not in the sources at hand;
it returns the spare storage of the tag. -/
def spare_storage (res : status_bitfield_type) : Nat :=
  res.spare_storage_value

/-- The hook `hook_result_construction(res, ...)` of the snippet: the slot claimed, if the
result has an error, the state of the ring buffer afterwards and the tag afterwards. -/
def hook_result_construction (d : mythreadlocaldata_t) (res : status_bitfield_type) :
    Option Nat × mythreadlocaldata_t × status_bitfield_type :=
  if res.have_error then
    -- extended_error_info &eei = mythreadlocaldata().next();
    let r := d.next
    -- set_spare_storage(res, mythreadlocaldata().current - 1);
    (some r.1, r.2, set_spare_storage res ((r.2.current : Int) - 1))
  else
    (Option.none, d, res)

/-- The lookup at the head of `poke_exception(o)` in the snippet:
`if(o->has_error()) eei = mythreadlocaldata().get(spare_storage(o))`. -/
def poke_exception_slot (d : mythreadlocaldata_t) (o : status_bitfield_type) : Option Nat :=
  if o.have_error then d.get (spare_storage o) else Option.none

/-! ## Sequences of setter calls in the transition table -/

/-- One call `set_have_X(v)` of a setter in its `switch` form. -/
structure table_call where
  f : table_setter
  v : Bool
  deriving DecidableEq, Repr

/-- Run a sequence of setter calls on a tag with the `switch` form of the setters;
`Option.none` when some call is one the table marks undefined (`make_ub`). -/
def run_table_calls (t : status_bitfield_type) : List table_call → Option status_bitfield_type
  | [] => some t
  | c :: cs =>
    match c.f.table t c.v with
    | Option.none => Option.none
    | some t' => run_table_calls t' cs

/-- Run a sequence of setter calls on a tag with the bitwise form of the setters, the form that
is compiled; `Option.none` when some call is one the `switch` form marks undefined (`make_ub`)
on the tag it is made on. -/
def run_bitwise_calls (t : status_bitfield_type) : List table_call → Option status_bitfield_type
  | [] => some t
  | c :: cs =>
    match c.f.table t c.v with
    | Option.none => Option.none
    | some _ => run_bitwise_calls (c.f.bitwise t c.v) cs

/-- The consistency of a cell's tag with its payload: a payload object is alive exactly when
the tag has the value bit. -/
def value_storage_nontrivial.consistent {T : Type} (c : value_storage_nontrivial T) : Prop :=
  c._value.isSome = c._status.have_value

instance {T : Type} (c : value_storage_nontrivial T) : Decidable c.consistent :=
  inferInstanceAs (Decidable (c._value.isSome = c._status.have_value))

/-- The consistency of a trivial cell's tag with its union: the member `_value` is the active
one exactly when the tag has the value bit. -/
def value_storage_trivial.consistent {T : Type} (c : value_storage_trivial T) : Prop :=
  c._value.isSome = c._status.have_value

instance {T : Type} (c : value_storage_trivial T) : Decidable c.consistent :=
  inferInstanceAs (Decidable (c._value.isSome = c._status.have_value))

/-- A counting payload type over the natural numbers whose assignment throws on exactly the
calls listed (the exception is the index of the call), whose constructors never throw, and
whose moved-from state is `0`. -/
def throwing_payload (calls : List Nat) : payload_type Nat Nat :=
  { ctor_throws := fun _ => Option.none
    assign_throws := fun n => if n ∈ calls then some n else Option.none
    moved_from := fun _ => 0
    is_nothrow_swappable := false }

/-- A counting payload type over the natural numbers whose constructors throw on every call
(the exception is `100` plus the index of the call), whose assignment never throws, and whose
moved-from state is `0`. -/
def throwing_constructor_payload : payload_type Nat Nat :=
  { ctor_throws := fun n => some (100 + n)
    assign_throws := fun _ => Option.none
    moved_from := fun _ => 0
    is_nothrow_swappable := false }

/-! # Properties of the tag -/

theorem and_two_pow_ne_zero (w k : Nat) : ((w &&& 2 ^ k) != 0) = w.testBit k := by
  rw [Nat.and_two_pow]
  cases h : w.testBit k <;> simp

theorem test_bits_two_pow (w k : Nat) (hk : k < 16) : test_bits w (2 ^ k) = w.testBit k := by
  have h1 : (2:Nat) ^ k < 2 ^ 16 := Nat.pow_lt_pow_right (by norm_num) hk
  have h2 : to_uint16 (2 ^ k) = 2 ^ k := Nat.mod_eq_of_lt h1
  unfold test_bits
  rw [h2, and_two_pow_ne_zero]
  show (w % 2 ^ 16).testBit k = _
  rw [Nat.testBit_mod_two_pow]
  simp [hk]

theorem testBit_set_bits (w k j : Nat) (v : Bool) (hk : k < 16) (hj : j < 16) :
    (set_bits w (2 ^ k) v).testBit j = if j = k then v else w.testBit j := by
  have h1 : (2:Nat) ^ k < 2 ^ 16 := Nat.pow_lt_pow_right (by norm_num) hk
  have h2 : to_uint16 (2 ^ k) = 2 ^ k := Nat.mod_eq_of_lt h1
  have h3 : (4294967295 : Nat) = 2 ^ 32 - 1 := by norm_num
  unfold set_bits
  rw [h2]
  show (_ % 2 ^ 16).testBit j = _
  rw [Nat.testBit_mod_two_pow]
  cases v
  · simp only [Bool.false_eq_true, if_false, bit_not, to_uint16]
    rw [h3]
    show (decide (j < 16) && ((w % 2 ^ 16) &&& (2 ^ 32 - 1 ^^^ 2 ^ k)).testBit j) = _
    simp only [Nat.testBit_and, Nat.testBit_xor, Nat.testBit_mod_two_pow,
      Nat.testBit_two_pow_sub_one, Nat.testBit_two_pow]
    by_cases hjk : j = k
    · subst hjk; simp [hj]; omega
    · have : ¬ k = j := fun h => hjk h.symm
      simp [hj, hjk, this]; omega
  · simp only [if_true, to_uint16]
    show (decide (j < 16) && ((w % 2 ^ 16) ||| 2 ^ k).testBit j) = _
    simp only [Nat.testBit_or, Nat.testBit_mod_two_pow, Nat.testBit_two_pow]
    by_cases hjk : j = k
    · subst hjk; simp [hj]
    · have : ¬ k = j := fun h => hjk h.symm
      simp [hj, hjk, this]

theorem flag.bit_lt (X : flag) : X.bit < 16 := by
  cases X <;> decide

theorem flag.bit_injective {X Y : flag} (h : X.bit = Y.bit) : X = Y := by
  revert h; cases X <;> cases Y <;> decide

theorem flag.get_eq_testBit (X : flag) (t : status_bitfield_type) :
    X.get t = t.status_value.testBit X.bit := by
  cases X
  · exact test_bits_two_pow t.status_value 0 (by norm_num)
  · exact test_bits_two_pow t.status_value 1 (by norm_num)
  · exact test_bits_two_pow t.status_value 2 (by norm_num)
  · exact test_bits_two_pow t.status_value 4 (by norm_num)
  · exact test_bits_two_pow t.status_value 3 (by norm_num)
  · exact test_bits_two_pow t.status_value 5 (by norm_num)

theorem flag.set_status_value (X : flag) (t : status_bitfield_type) (v : Bool) :
    (X.set t v).status_value = set_bits t.status_value (2 ^ X.bit) v := by
  cases X <;> rfl

theorem flag.set_spare_storage_value (X : flag) (t : status_bitfield_type) (v : Bool) :
    (X.set t v).spare_storage_value = t.spare_storage_value := by
  cases X <;> rfl

theorem flag.get_set (X Y : flag) (t : status_bitfield_type) (v : Bool) :
    Y.get (X.set t v) = if Y = X then v else Y.get t := by
  rw [flag.get_eq_testBit, flag.get_eq_testBit, flag.set_status_value,
    testBit_set_bits _ _ _ _ X.bit_lt Y.bit_lt]
  by_cases h : Y = X
  · subst h; simp
  · have hb : ¬ Y.bit = X.bit := fun hb => h (flag.bit_injective hb)
    simp [h, hb]

/-- C1: for every tag (any status word, any spare storage), every flag `X` of the six and every
boolean `v`, the getter `have_X()` returns `v` after `set_have_X(v)`. -/
theorem getter_after_setter (t : status_bitfield_type) (X : flag) (v : Bool) :
    X.get (X.set t v) = v := by
  rw [flag.get_set]; simp

/-- C2: for every tag, every setter `set_have_X(v)` and every boolean `v`, the spare storage is
unchanged and the getter of every flag `Y` other than `X` returns what it returned before. -/
theorem setter_frame (t : status_bitfield_type) (X Y : flag) (v : Bool) (h : Y ≠ X) :
    (X.set t v).spare_storage_value = t.spare_storage_value ∧ Y.get (X.set t v) = Y.get t := by
  refine ⟨flag.set_spare_storage_value X t v, ?_⟩
  rw [flag.get_set]; simp [h]

theorem setter_frame_witness :
    flag.error ≠ flag.value ∧
      ((flag.value.set ⟨3, 9⟩ false).spare_storage_value = 9 ∧
        flag.error.get (flag.value.set ⟨3, 9⟩ false) = flag.error.get ⟨3, 9⟩) :=
  ⟨by decide, setter_frame ⟨3, 9⟩ .value .error false (by decide)⟩

/-- C3: in the `switch` form, every one of the sixteen enumerated states, every one of the five
setters and either boolean either has no successor (the table calls `make_ub`) or has a
successor whose status word is again an enumerator, with the spare storage kept; and
`none.set_have_value(true)` is `have_value`, `have_value.set_have_error(true)` is undefined. -/
theorem enum_table_total :
    (∀ (s : status) (f : table_setter) (v : Bool) (spare : Nat),
      f.table ⟨s.code, spare⟩ v = Option.none ∨
        ∃ s' : status, f.table ⟨s.code, spare⟩ v = some ⟨s'.code, spare⟩) ∧
    (∀ spare : Nat, status_bitfield_type.set_have_value_enum ⟨status.none.code, spare⟩ true =
      some ⟨status.have_value.code, spare⟩) ∧
    (∀ spare : Nat,
      status_bitfield_type.set_have_error_enum ⟨status.have_value.code, spare⟩ true =
        Option.none) := by
  refine ⟨?_, fun _ => rfl, fun _ => rfl⟩
  intro s f v spare
  cases s <;> cases f <;> cases v <;>
    first
    | exact Or.inl rfl
    | exact Or.inr ⟨.none, rfl⟩
    | exact Or.inr ⟨.have_value, rfl⟩
    | exact Or.inr ⟨.have_error, rfl⟩
    | exact Or.inr ⟨.have_exception, rfl⟩
    | exact Or.inr ⟨.have_error_exception, rfl⟩
    | exact Or.inr ⟨.have_lost_consistency, rfl⟩
    | exact Or.inr ⟨.have_value_lost_consistency, rfl⟩
    | exact Or.inr ⟨.have_error_lost_consistency, rfl⟩
    | exact Or.inr ⟨.have_exception_lost_consistency, rfl⟩
    | exact Or.inr ⟨.have_error_exception_lost_consistency, rfl⟩
    | exact Or.inr ⟨.have_error_is_errno, rfl⟩
    | exact Or.inr ⟨.have_error_error_is_errno, rfl⟩
    | exact Or.inr ⟨.have_error_exception_error_is_errno, rfl⟩
    | exact Or.inr ⟨.have_error_lost_consistency_error_is_errno, rfl⟩
    | exact Or.inr ⟨.have_error_exception_lost_consistency_error_is_errno, rfl⟩
    | exact Or.inr ⟨.have_moved_from, rfl⟩

/-- C4, as stated, fails: `have_value_lost_consistency` is a state the table handles and
`set_have_value(false)` is not marked undefined there, yet the table's successor is `none`
while the bitwise form produces the status word 8 (`have_lost_consistency`). -/
theorem bitwise_refines_table_counterexample :
    ¬ ∀ (s : status) (f : table_setter) (v : Bool) (spare : Nat) (t' : status_bitfield_type),
      s.handled = true → f.table ⟨s.code, spare⟩ v = some t' →
        f.bitwise ⟨s.code, spare⟩ v = t' := by
  intro h
  have h1 := h .have_value_lost_consistency .set_have_value false 0 ⟨0, 0⟩ rfl rfl
  revert h1
  decide

/-- C4, amended: for every state the table handles, every setter and every boolean for which
the table does not call `make_ub`: with `v = true` the bitwise form produces exactly the
table's successor; and in every case other than `set_have_lost_consistency(false)` on
`have_error_lost_consistency_error_is_errno`, the two successors have the same spare storage
and the same value, error, exception and moved-from flags, the table's error-is-errno flag is
the bitwise one cleared when error is not set, and the table's lost-consistency flag is the
bitwise one cleared when none of value, error, exception is set. -/
theorem bitwise_refines_table (s : status) (f : table_setter) (v : Bool) (spare : Nat)
    (t' : status_bitfield_type) (hs : s.handled = true)
    (ht : f.table ⟨s.code, spare⟩ v = some t') :
    (v = true → f.bitwise ⟨s.code, spare⟩ v = t') ∧
    (¬ (s = .have_error_lost_consistency_error_is_errno ∧ f = .set_have_lost_consistency ∧
        v = false) →
      t'.spare_storage_value = (f.bitwise ⟨s.code, spare⟩ v).spare_storage_value ∧
      t'.have_value = (f.bitwise ⟨s.code, spare⟩ v).have_value ∧
      t'.have_error = (f.bitwise ⟨s.code, spare⟩ v).have_error ∧
      t'.have_exception = (f.bitwise ⟨s.code, spare⟩ v).have_exception ∧
      t'.have_moved_from = (f.bitwise ⟨s.code, spare⟩ v).have_moved_from ∧
      t'.have_error_is_errno =
        ((f.bitwise ⟨s.code, spare⟩ v).have_error_is_errno &&
          (f.bitwise ⟨s.code, spare⟩ v).have_error) ∧
      t'.have_lost_consistency =
        ((f.bitwise ⟨s.code, spare⟩ v).have_lost_consistency &&
          ((f.bitwise ⟨s.code, spare⟩ v).have_value ||
            (f.bitwise ⟨s.code, spare⟩ v).have_error ||
            (f.bitwise ⟨s.code, spare⟩ v).have_exception))) := by
  cases s <;> cases f <;> cases v <;>
    first
    | (exfalso; revert hs; decide)
    | (cases ht; done)
    | (cases ht
       simp only [table_setter.bitwise, table_setter.flag, flag.set,
         status_bitfield_type.set_have_value, status_bitfield_type.set_have_error,
         status_bitfield_type.set_have_exception, status_bitfield_type.set_have_error_is_errno,
         status_bitfield_type.set_have_lost_consistency, status_bitfield_type.have_value,
         status_bitfield_type.have_error, status_bitfield_type.have_exception,
         status_bitfield_type.have_error_is_errno, status_bitfield_type.have_lost_consistency,
         status_bitfield_type.have_moved_from, status_bitfield_type.assign,
         status_bitfield_type.mk.injEq, and_true]
       decide)

theorem bitwise_refines_table_witness :
    (false = true →
      table_setter.set_have_error.bitwise ⟨status.have_error_error_is_errno.code, 5⟩ false =
        ⟨0, 5⟩) ∧
    (¬ (status.have_error_error_is_errno = .have_error_lost_consistency_error_is_errno ∧
        table_setter.set_have_error = .set_have_lost_consistency ∧ false = false) →
      (⟨0, 5⟩ : status_bitfield_type).spare_storage_value =
        (table_setter.set_have_error.bitwise
          ⟨status.have_error_error_is_errno.code, 5⟩ false).spare_storage_value ∧
      (⟨0, 5⟩ : status_bitfield_type).have_value =
        (table_setter.set_have_error.bitwise
          ⟨status.have_error_error_is_errno.code, 5⟩ false).have_value ∧
      (⟨0, 5⟩ : status_bitfield_type).have_error =
        (table_setter.set_have_error.bitwise
          ⟨status.have_error_error_is_errno.code, 5⟩ false).have_error ∧
      (⟨0, 5⟩ : status_bitfield_type).have_exception =
        (table_setter.set_have_error.bitwise
          ⟨status.have_error_error_is_errno.code, 5⟩ false).have_exception ∧
      (⟨0, 5⟩ : status_bitfield_type).have_moved_from =
        (table_setter.set_have_error.bitwise
          ⟨status.have_error_error_is_errno.code, 5⟩ false).have_moved_from ∧
      (⟨0, 5⟩ : status_bitfield_type).have_error_is_errno =
        ((table_setter.set_have_error.bitwise
            ⟨status.have_error_error_is_errno.code, 5⟩ false).have_error_is_errno &&
          (table_setter.set_have_error.bitwise
            ⟨status.have_error_error_is_errno.code, 5⟩ false).have_error) ∧
      (⟨0, 5⟩ : status_bitfield_type).have_lost_consistency =
        ((table_setter.set_have_error.bitwise
            ⟨status.have_error_error_is_errno.code, 5⟩ false).have_lost_consistency &&
          ((table_setter.set_have_error.bitwise
              ⟨status.have_error_error_is_errno.code, 5⟩ false).have_value ||
            (table_setter.set_have_error.bitwise
              ⟨status.have_error_error_is_errno.code, 5⟩ false).have_error ||
            (table_setter.set_have_error.bitwise
              ⟨status.have_error_error_is_errno.code, 5⟩ false).have_exception))) :=
  bitwise_refines_table .have_error_error_is_errno .set_have_error false 5 ⟨0, 5⟩ rfl rfl

theorem value_exclusive_set (t : status_bitfield_type) (c : setter_call)
    (hinv : value_exclusive t) (hc : c.allowed t = true) :
    value_exclusive (c.X.set t c.v) := by
  obtain ⟨X, v⟩ := c
  have gv : ∀ u : status_bitfield_type, u.have_value = flag.value.get u := fun _ => rfl
  have ge : ∀ u : status_bitfield_type, u.have_error = flag.error.get u := fun _ => rfl
  have gx : ∀ u : status_bitfield_type, u.have_exception = flag.exception.get u := fun _ => rfl
  unfold value_exclusive at hinv ⊢
  simp only [gv, ge, gx, flag.get_set] at hinv ⊢
  cases X <;> cases v <;>
    simp_all [setter_call.allowed, gv, ge, gx]

theorem value_exclusive_run (calls : List setter_call) :
    ∀ t t' : status_bitfield_type, value_exclusive t → run_calls t calls = some t' →
      value_exclusive t' := by
  induction calls with
  | nil =>
    intro t t' hinv h
    cases h
    exact hinv
  | cons c cs ih =>
    intro t t' hinv h
    unfold run_calls at h
    by_cases hc : c.allowed t = true
    · rw [if_pos hc] at h
      exact ih _ _ (value_exclusive_set t c hinv hc) h
    · rw [if_neg hc] at h
      cases h

/-- C5: starting from `none` (with any spare storage) and applying any sequence of setter calls
that respects the contract preconditions, the tag reached has no error and no exception
whenever it has a value. -/
theorem value_excludes_error_and_exception (spare : Nat) (calls : List setter_call)
    (t : status_bitfield_type)
    (hrun : run_calls ⟨status.none.code, spare⟩ calls = some t) (hv : t.have_value = true) :
    t.have_error = false ∧ t.have_exception = false :=
  value_exclusive_run calls ⟨status.none.code, spare⟩ t
    (fun h => Bool.noConfusion
      ((by decide : test_bits status.none.code status.have_value.code = false).symm.trans h))
    hrun hv

theorem value_excludes_error_and_exception_witness :
    run_calls ⟨status.none.code, 7⟩
        [⟨.error, true⟩, ⟨.error_is_errno, true⟩, ⟨.error, false⟩, ⟨.value, true⟩] =
      some ⟨17, 7⟩ ∧
    (⟨17, 7⟩ : status_bitfield_type).have_value = true ∧
    ((⟨17, 7⟩ : status_bitfield_type).have_error = false ∧
      (⟨17, 7⟩ : status_bitfield_type).have_exception = false) :=
  ⟨by decide, by decide,
    value_excludes_error_and_exception 7
      [⟨.error, true⟩, ⟨.error_is_errno, true⟩, ⟨.error, false⟩, ⟨.value, true⟩] ⟨17, 7⟩
      (by decide) (by decide)⟩

/-! # Properties of strong swap and of the non-trivial cell -/

section cells

variable {T E : Type}

theorem strong_swap_impl_false_eq (P : payload_type T E) (log : payload_log) (a b : T)
    (hc : P.ctor_throws log.ctor_calls = Option.none) :
    strong_swap_impl_false P log a b =
      let log1 : payload_log :=
        { log with ctor_calls := log.ctor_calls + 1, constructions := log.constructions + 1 }
      match P.assign_throws log.assign_calls with
      | some e =>
        match P.assign_throws (log.assign_calls + 1) with
        | Option.none =>
          ⟨true, a, b, { log1 with assign_calls := log.assign_calls + 2 }.destroy, some e⟩
        | some _ =>
          ⟨false, P.moved_from a, b, { log1 with assign_calls := log.assign_calls + 2 }.destroy,
            some e⟩
      | Option.none =>
        match P.assign_throws (log.assign_calls + 1) with
        | Option.none =>
          ⟨true, b, a, { log1 with assign_calls := log.assign_calls + 2 }.destroy, Option.none⟩
        | some e =>
          match P.assign_throws (log.assign_calls + 2) with
          | some _ =>
            ⟨false, b, P.moved_from b,
              { log1 with assign_calls := log.assign_calls + 3 }.destroy, some e⟩
          | Option.none =>
            match P.assign_throws (log.assign_calls + 3) with
            | Option.none =>
              ⟨true, a, b, { log1 with assign_calls := log.assign_calls + 4 }.destroy, some e⟩
            | some _ =>
              ⟨false, P.moved_from b, b,
                { log1 with assign_calls := log.assign_calls + 4 }.destroy, some e⟩ := by
  simp only [strong_swap_impl_false, payload_type.move_construct, hc, payload_type.move_assign]
  cases h0 : P.assign_throws log.assign_calls <;>
  cases h1 : P.assign_throws (log.assign_calls + 1) <;>
  cases h2 : P.assign_throws (log.assign_calls + 2) <;>
  cases h3 : P.assign_throws (log.assign_calls + 3) <;>
  simp [h0, h1, h2, h3]

theorem have_value_set_have_lost_consistency (t : status_bitfield_type) (v : Bool) :
    (t.set_have_lost_consistency v).have_value = t.have_value := by
  have h := flag.get_set .lost_consistency .value t v
  simpa using h

theorem have_lost_consistency_set_true (t : status_bitfield_type) :
    (t.set_have_lost_consistency true).have_lost_consistency = true := by
  have h := flag.get_set .lost_consistency .lost_consistency t true
  simpa using h

theorem have_value_set_have_value (t : status_bitfield_type) (v : Bool) :
    (t.set_have_value v).have_value = v := by
  have h := flag.get_set .value .value t v
  simpa using h

/-- C6, as stated, fails: when the first move-assignment of the swap throws and the
restoration succeeds, `swap` throws and leaves both cells as they were: the payloads are not
exchanged, so the cells are not swapped, and no lost-consistency flag is set. -/
theorem strong_swap_property_counterexample :
    ∃ r, value_storage_nontrivial.swap (throwing_payload [0]) {}
        ⟨some 1, ⟨status.have_value.code, 0⟩⟩ ⟨some 2, ⟨status.have_value.code, 0⟩⟩ = some r ∧
      r.thrown ≠ Option.none ∧
      ¬ ((r.self._value = some 2 ∧ r.o._value = some 1 ∧
            r.self._status.have_lost_consistency = false ∧
            r.o._status.have_lost_consistency = false) ∨
          (r.self._status.have_lost_consistency = true ∧
            r.o._status.have_lost_consistency = true)) := by
  refine ⟨_, rfl, ?_, ?_⟩ <;> decide

/-- C6, amended: for two value-holding non-trivial cells and a payload whose move-assignment
may throw on any calls (a throwing call leaves its operands unchanged, constructors do not
throw), whenever `swap(A, B)` throws, afterwards either (a) `A` and `B` are exactly as they
were before the swap, payloads and tags, or (b) the lost-consistency flag is set on both; and
in case (b) both cells still have the value bit set with a live payload, so that destroying
each destroys its payload exactly once and leaves storage that a destructor does not touch
again. -/
theorem strong_swap_property (P : payload_type T E) (log : payload_log)
    (a b : value_storage_nontrivial T)
    (ha : a._status.have_value = true) (hb : b._status.have_value = true)
    (hla : a.consistent) (hlb : b.consistent)
    (hc : ∀ n, P.ctor_throws n = Option.none) :
    ∃ r, value_storage_nontrivial.swap P log a b = some r ∧
      (r.thrown ≠ Option.none →
        (r.self = a ∧ r.o = b) ∨
        (r.self._status.have_lost_consistency = true ∧
          r.o._status.have_lost_consistency = true ∧
          r.self._status.have_value = true ∧ r.o._status.have_value = true ∧
          r.self._value.isSome = true ∧ r.o._value.isSome = true ∧
          (∃ c, value_storage_nontrivial.destructor r.log r.self = some (r.log.destroy, c) ∧
            c._value = Option.none ∧ c._status.have_value = false ∧
            value_storage_nontrivial.destructor r.log.destroy c = some (r.log.destroy, c)) ∧
          (∃ c, value_storage_nontrivial.destructor r.log r.o = some (r.log.destroy, c) ∧
            c._value = Option.none ∧ c._status.have_value = false ∧
            value_storage_nontrivial.destructor r.log.destroy c =
              some (r.log.destroy, c)))) := by
  obtain ⟨va, sa⟩ := a
  obtain ⟨vb, sb⟩ := b
  simp only [value_storage_nontrivial.consistent] at hla hlb
  simp only at ha hb
  rw [ha] at hla
  rw [hb] at hlb
  cases va with
  | none => simp at hla
  | some x =>
  cases vb with
  | none => simp at hlb
  | some y =>
  simp only [value_storage_nontrivial.swap, ha, hb, strong_swap]
  by_cases hn : P.is_nothrow_swappable = true
  · simp [hn, strong_swap_impl_nothrow]
  · simp only [hn, strong_swap_impl_false_eq P log x y (hc _)]
    cases h0 : P.assign_throws log.assign_calls <;>
    cases h1 : P.assign_throws (log.assign_calls + 1) <;>
    cases h2 : P.assign_throws (log.assign_calls + 2) <;>
    cases h3 : P.assign_throws (log.assign_calls + 3) <;>
    simp [value_storage_nontrivial.swap_guard, value_storage_nontrivial.destructor, ha, hb,
      have_value_set_have_lost_consistency, have_lost_consistency_set_true,
      have_value_set_have_value]

theorem strong_swap_property_witness :
    ((⟨some 1, ⟨status.have_value.code, 0⟩⟩ : value_storage_nontrivial Nat)._status.have_value
        = true ∧
      (⟨some 2, ⟨status.have_value.code, 0⟩⟩ : value_storage_nontrivial Nat)._status.have_value
        = true ∧
      (⟨some 1, ⟨status.have_value.code, 0⟩⟩ : value_storage_nontrivial Nat).consistent ∧
      (⟨some 2, ⟨status.have_value.code, 0⟩⟩ : value_storage_nontrivial Nat).consistent ∧
      ∀ n, (throwing_payload [0, 1]).ctor_throws n = Option.none) ∧
    ∃ r, value_storage_nontrivial.swap (throwing_payload [0, 1]) {}
        ⟨some 1, ⟨status.have_value.code, 0⟩⟩ ⟨some 2, ⟨status.have_value.code, 0⟩⟩ = some r ∧
      (r.thrown ≠ Option.none →
        (r.self = ⟨some 1, ⟨status.have_value.code, 0⟩⟩ ∧
          r.o = ⟨some 2, ⟨status.have_value.code, 0⟩⟩) ∨
        (r.self._status.have_lost_consistency = true ∧
          r.o._status.have_lost_consistency = true ∧
          r.self._status.have_value = true ∧ r.o._status.have_value = true ∧
          r.self._value.isSome = true ∧ r.o._value.isSome = true ∧
          (∃ c, value_storage_nontrivial.destructor r.log r.self = some (r.log.destroy, c) ∧
            c._value = Option.none ∧ c._status.have_value = false ∧
            value_storage_nontrivial.destructor r.log.destroy c = some (r.log.destroy, c)) ∧
          (∃ c, value_storage_nontrivial.destructor r.log r.o = some (r.log.destroy, c) ∧
            c._value = Option.none ∧ c._status.have_value = false ∧
            value_storage_nontrivial.destructor r.log.destroy c =
              some (r.log.destroy, c)))) :=
  ⟨⟨by decide, by decide, by decide, by decide, fun _ => rfl⟩,
    strong_swap_property (throwing_payload [0, 1]) {}
      ⟨some 1, ⟨status.have_value.code, 0⟩⟩ ⟨some 2, ⟨status.have_value.code, 0⟩⟩
      (by decide) (by decide) (by decide) (by decide) (fun _ => rfl)⟩

/-- C7: when no payload operation throws, `strong_swap(allgood, a, b)` leaves `a` holding
`b`'s original value, `b` holding `a`'s original value and `allgood = true`, without throwing,
and the throwing-aware implementation `strong_swap_impl<T, false>` gives the same result as
the plain swap of the primary template used for nothrow-swappable payloads. -/
theorem strong_swap_no_throw (P : payload_type T E) (log : payload_log) (a b : T)
    (hc : ∀ n, P.ctor_throws n = Option.none) (hs : ∀ n, P.assign_throws n = Option.none) :
    (strong_swap P log a b).a = b ∧ (strong_swap P log a b).b = a ∧
      (strong_swap P log a b).allgood = true ∧
      (strong_swap P log a b).thrown = Option.none ∧
      strong_swap_impl_false P log a b = strong_swap_impl_nothrow P log a b := by
  have h : strong_swap_impl_false P log a b = strong_swap_impl_nothrow P log a b := by
    rw [strong_swap_impl_false_eq P log a b (hc _)]
    simp [hs, strong_swap_impl_nothrow, std_swap, payload_type.move, payload_log.destroy]
  refine ⟨?_, ?_, ?_, ?_, h⟩ <;>
    (unfold strong_swap; split <;> simp [h, strong_swap_impl_nothrow, std_swap, payload_type.move])

theorem strong_swap_no_throw_witness :
    ((∀ n, (throwing_payload []).ctor_throws n = Option.none) ∧
      (∀ n, (throwing_payload []).assign_throws n = Option.none)) ∧
    ((strong_swap (throwing_payload []) {} 1 2).a = 2 ∧
      (strong_swap (throwing_payload []) {} 1 2).b = 1 ∧
      (strong_swap (throwing_payload []) {} 1 2).allgood = true ∧
      (strong_swap (throwing_payload []) {} 1 2).thrown = Option.none ∧
      strong_swap_impl_false (throwing_payload []) {} 1 2 =
        strong_swap_impl_nothrow (throwing_payload []) {} 1 2) :=
  ⟨⟨fun _ => rfl, fun _ => rfl⟩,
    strong_swap_no_throw (throwing_payload []) {} 1 2 (fun _ => rfl) (fun _ => rfl)⟩

theorem strong_swap_impl_false_thrown (P : payload_type T E) (log : payload_log) (a b : T)
    (e : E) (hc : P.ctor_throws log.ctor_calls = Option.none)
    (ht : (strong_swap_impl_false P log a b).thrown = some e) :
    ∃ k, log.assign_calls ≤ k ∧ k < (strong_swap_impl_false P log a b).log.assign_calls ∧
      P.assign_throws k = some e ∧
      (∀ j, log.assign_calls ≤ j → j < k → P.assign_throws j = Option.none) ∧
      ((strong_swap_impl_false P log a b).allgood = false ↔
        ∃ j, k < j ∧ j < (strong_swap_impl_false P log a b).log.assign_calls ∧
          P.assign_throws j ≠ Option.none) := by
  rw [strong_swap_impl_false_eq P log a b hc] at ht ⊢
  have one : ∀ j, log.assign_calls < j → j < log.assign_calls + 2 → j = log.assign_calls + 1 :=
    fun j h1 h2 => by omega
  cases h0 : P.assign_throws log.assign_calls with
  | some e0 =>
    cases h1 : P.assign_throws (log.assign_calls + 1) with
    | none =>
      simp only [h0, h1] at ht ⊢
      cases ht
      refine ⟨log.assign_calls, le_refl _, by simp [payload_log.destroy], h0,
        fun j h1 h2 => by omega, ?_⟩
      simp only [payload_log.destroy, Bool.true_eq_false, false_iff]
      rintro ⟨j, hj1, hj2, hj3⟩
      rw [one j hj1 hj2] at hj3
      exact hj3 h1
    | some e1 =>
      simp only [h0, h1] at ht ⊢
      cases ht
      refine ⟨log.assign_calls, le_refl _, by simp [payload_log.destroy], h0,
        fun j h1 h2 => by omega, ?_⟩
      simp only [payload_log.destroy, true_iff]
      exact ⟨log.assign_calls + 1, by omega, by omega, by simp [h1]⟩
  | none =>
    cases h1 : P.assign_throws (log.assign_calls + 1) with
    | none =>
      simp [h0, h1] at ht
    | some e1 =>
      have first : ∀ j, log.assign_calls ≤ j → j < log.assign_calls + 1 →
          P.assign_throws j = Option.none := by
        intro j hj1 hj2
        have : j = log.assign_calls := by omega
        rw [this]; exact h0
      cases h2 : P.assign_throws (log.assign_calls + 2) with
      | some e2 =>
        simp only [h0, h1, h2] at ht ⊢
        cases ht
        refine ⟨log.assign_calls + 1, by omega, by simp [payload_log.destroy], h1, first, ?_⟩
        simp only [payload_log.destroy, true_iff]
        exact ⟨log.assign_calls + 2, by omega, by omega, by simp [h2]⟩
      | none =>
        cases h3 : P.assign_throws (log.assign_calls + 3) with
        | none =>
          simp only [h0, h1, h2, h3] at ht ⊢
          cases ht
          refine ⟨log.assign_calls + 1, by omega, by simp [payload_log.destroy], h1, first, ?_⟩
          simp only [payload_log.destroy, Bool.true_eq_false, false_iff]
          rintro ⟨j, hj1, hj2, hj3⟩
          have hj : j = log.assign_calls + 2 ∨ j = log.assign_calls + 3 := by omega
          rcases hj with hj | hj
          · rw [hj] at hj3; exact hj3 h2
          · rw [hj] at hj3; exact hj3 h3
        | some e3 =>
          simp only [h0, h1, h2, h3] at ht ⊢
          cases ht
          refine ⟨log.assign_calls + 1, by omega, by simp [payload_log.destroy], h1, first, ?_⟩
          simp only [payload_log.destroy, true_iff]
          exact ⟨log.assign_calls + 3, by omega, by omega, by simp [h3]⟩

/-- C8, as stated, fails: with a payload whose move constructor throws, `strong_swap` throws
the exception of the construction of the temporary `v`, with `allgood` true; it made no
move-assignment, so the exception is not one raised by a failing move-assignment. -/
theorem strong_swap_rethrows_original_counterexample :
    (strong_swap throwing_constructor_payload {} 10 20).thrown = some 100 ∧
    (strong_swap throwing_constructor_payload {} 10 20).allgood = true ∧
    (strong_swap throwing_constructor_payload {} 10 20).log.assign_calls =
      ({} : payload_log).assign_calls ∧
    ¬ ∃ k, ({} : payload_log).assign_calls ≤ k ∧
      k < (strong_swap throwing_constructor_payload {} 10 20).log.assign_calls ∧
      throwing_constructor_payload.assign_throws k = some 100 := by
  refine ⟨by decide, by decide, by decide, ?_⟩
  rintro ⟨k, _, h, _⟩
  have h0 : (strong_swap throwing_constructor_payload {} 10 20).log.assign_calls = 0 := by
    decide
  omega

/-- C8, amended: whenever `strong_swap` throws, the exception it propagates is the first one a
payload operation raised. Either that is the exception of the move construction of the
temporary, and then no move-assignment was made and `allgood` is true; or the temporary was
constructed, the exception is the one raised by the first failing move-assignment among the
calls made, and `allgood` is false exactly when a later move-assignment, one of the restoring
ones, threw as well. -/
theorem strong_swap_rethrows_original (P : payload_type T E) (log : payload_log) (a b : T)
    (e : E) (ht : (strong_swap P log a b).thrown = some e) :
    (P.ctor_throws log.ctor_calls = some e ∧
      (strong_swap P log a b).log.assign_calls = log.assign_calls ∧
      (strong_swap P log a b).allgood = true) ∨
    (P.ctor_throws log.ctor_calls = Option.none ∧
      ∃ k, log.assign_calls ≤ k ∧ k < (strong_swap P log a b).log.assign_calls ∧
        P.assign_throws k = some e ∧
        (∀ j, log.assign_calls ≤ j → j < k → P.assign_throws j = Option.none) ∧
        ((strong_swap P log a b).allgood = false ↔
          ∃ j, k < j ∧ j < (strong_swap P log a b).log.assign_calls ∧
            P.assign_throws j ≠ Option.none)) := by
  by_cases hn : P.is_nothrow_swappable = true
  · simp [strong_swap, hn, strong_swap_impl_nothrow] at ht
  · have hs : strong_swap P log a b = strong_swap_impl_false P log a b := by
      simp [strong_swap, hn]
    rw [hs] at ht ⊢
    cases hc : P.ctor_throws log.ctor_calls with
    | some e0 =>
      left
      have hr : strong_swap_impl_false P log a b =
          { allgood := true, a := a, b := b,
            log := { log with ctor_calls := log.ctor_calls + 1 }, thrown := some e0 } := by
        simp only [strong_swap_impl_false, payload_type.move_construct, hc]
      rw [hr] at ht ⊢
      cases ht
      exact ⟨rfl, rfl, rfl⟩
    | none =>
      right
      exact ⟨rfl, strong_swap_impl_false_thrown P log a b e hc ht⟩

theorem strong_swap_rethrows_original_witness :
    (strong_swap (throwing_payload [1, 3]) {} 10 20).thrown = some 1 ∧
    (((throwing_payload [1, 3]).ctor_throws (({} : payload_log).ctor_calls) = some 1 ∧
        (strong_swap (throwing_payload [1, 3]) {} 10 20).log.assign_calls =
          ({} : payload_log).assign_calls ∧
        (strong_swap (throwing_payload [1, 3]) {} 10 20).allgood = true) ∨
      ((throwing_payload [1, 3]).ctor_throws (({} : payload_log).ctor_calls) = Option.none ∧
        ∃ k, ({} : payload_log).assign_calls ≤ k ∧
          k < (strong_swap (throwing_payload [1, 3]) {} 10 20).log.assign_calls ∧
          (throwing_payload [1, 3]).assign_throws k = some 1 ∧
          (∀ j, ({} : payload_log).assign_calls ≤ j → j < k →
            (throwing_payload [1, 3]).assign_throws j = Option.none) ∧
          ((strong_swap (throwing_payload [1, 3]) {} 10 20).allgood = false ↔
            ∃ j, k < j ∧ j < (strong_swap (throwing_payload [1, 3]) {} 10 20).log.assign_calls ∧
              (throwing_payload [1, 3]).assign_throws j ≠ Option.none))) :=
  ⟨by decide,
    strong_swap_rethrows_original (throwing_payload [1, 3]) {} 10 20 1 (by decide)⟩

theorem consistent_of_some (x : T) (t : status_bitfield_type) (h : t.have_value = true) :
    (⟨some x, t⟩ : value_storage_nontrivial T).consistent := by
  simp [value_storage_nontrivial.consistent, h]

theorem consistent_of_none (t : status_bitfield_type) (h : t.have_value = false) :
    (⟨Option.none, t⟩ : value_storage_nontrivial T).consistent := by
  simp [value_storage_nontrivial.consistent, h]

/-- C10: constructing a value-holding cell in place (the payload constructor not throwing) and
then destroying it performs exactly one payload construction and exactly one payload
destruction and clears the value bit; destroying a cell whose value bit is not set performs
no payload destruction and leaves the cell as it is. -/
theorem construct_then_destroy (P : payload_type T E) (log : payload_log) (x : T)
    (hc : P.ctor_throws log.ctor_calls = Option.none) :
    (∃ log1 c, value_storage_nontrivial.in_place P log x = (log1, .ok c) ∧
      c._status.have_value = true ∧ c._value = some x ∧
      log1.constructions = log.constructions + 1 ∧ log1.destructions = log.destructions ∧
      ∃ log2 c2, value_storage_nontrivial.destructor log1 c = some (log2, c2) ∧
        log2.constructions = log.constructions + 1 ∧
        log2.destructions = log.destructions + 1 ∧
        c2._status.have_value = false ∧ c2._value = Option.none) ∧
    (∀ (log0 : payload_log) (c : value_storage_nontrivial T), c._status.have_value = false →
      value_storage_nontrivial.destructor log0 c = some (log0, c)) := by
  constructor
  · have hv : (⟨status.have_value.code, 0⟩ : status_bitfield_type).have_value = true := by
      decide
    refine ⟨{ log with ctor_calls := log.ctor_calls + 1,
                       constructions := log.constructions + 1 },
      ⟨some x, ⟨status.have_value.code, 0⟩⟩, ?_, hv, rfl, rfl, rfl, ?_⟩
    · simp [value_storage_nontrivial.in_place, payload_type.construct, hc]
    · exact ⟨_, _, by simp only [value_storage_nontrivial.destructor, hv, if_true]; rfl,
        rfl, rfl, have_value_set_have_value _ _, rfl⟩
  · intro log0 c h
    simp [value_storage_nontrivial.destructor, h]

theorem construct_then_destroy_witness :
    (throwing_payload []).ctor_throws (({} : payload_log).ctor_calls) = Option.none ∧
    ((∃ log1 c, value_storage_nontrivial.in_place (throwing_payload []) {} 42 = (log1, .ok c) ∧
        c._status.have_value = true ∧ c._value = some 42 ∧
        log1.constructions = ({} : payload_log).constructions + 1 ∧
        log1.destructions = ({} : payload_log).destructions ∧
        ∃ log2 c2, value_storage_nontrivial.destructor log1 c = some (log2, c2) ∧
          log2.constructions = ({} : payload_log).constructions + 1 ∧
          log2.destructions = ({} : payload_log).destructions + 1 ∧
          c2._status.have_value = false ∧ c2._value = Option.none) ∧
      (∀ (log0 : payload_log) (c : value_storage_nontrivial Nat),
        c._status.have_value = false →
          value_storage_nontrivial.destructor log0 c = some (log0, c))) :=
  ⟨rfl, construct_then_destroy (throwing_payload []) {} 42 rfl⟩

/-- C11: for two consistent non-trivial cells and a payload none of whose operations throws,
the synthesized move assignment and the synthesized copy assignment `this = other` each run
exactly the payload operation of their case (both live: one assignment from other's payload;
only `this` live: one destruction; only `other` live: one construction from other's payload;
neither live: nothing), leave `this` with other's payload state, and in all four cases leave
`this`'s tag equal to other's tag, spare storage included. -/
theorem assignment_four_cases (P : payload_type T E) (log : payload_log)
    (c o : value_storage_nontrivial T) (hc : c.consistent) (ho : o.consistent)
    (hct : ∀ n, P.ctor_throws n = Option.none) (hat : ∀ n, P.assign_throws n = Option.none) :
    (∃ r, value_storage_nontrivial_move_assignment.assign P log c o = some r ∧
      r.thrown = Option.none ∧ r.self._status = o._status ∧ r.self._value = o._value ∧
      r.log =
        (if c._status.have_value && o._status.have_value then
          { log with assign_calls := log.assign_calls + 1 }
        else if c._status.have_value then log.destroy
        else if o._status.have_value then
          { log with ctor_calls := log.ctor_calls + 1, constructions := log.constructions + 1 }
        else log)) ∧
    (∃ r, value_storage_nontrivial_copy_assignment.assign P log c o = some r ∧
      r.thrown = Option.none ∧ r.self._status = o._status ∧ r.self._value = o._value ∧
      r.o = o ∧
      r.log =
        (if c._status.have_value && o._status.have_value then
          { log with assign_calls := log.assign_calls + 1 }
        else if c._status.have_value then log.destroy
        else if o._status.have_value then
          { log with ctor_calls := log.ctor_calls + 1, constructions := log.constructions + 1 }
        else log)) := by
  obtain ⟨vc, sc⟩ := c
  obtain ⟨vo, so⟩ := o
  simp only [value_storage_nontrivial.consistent] at hc ho
  constructor
  · simp only [value_storage_nontrivial_move_assignment.assign, payload_type.move_construct,
      payload_type.move_assign, hct, hat]
    cases hvc : sc.have_value <;> cases vc <;> simp [hvc] at hc <;>
    cases hvo : so.have_value <;> cases vo <;> simp [hvo] at ho <;>
    simp [hvc, hvo]
  · simp only [value_storage_nontrivial_copy_assignment.assign, payload_type.copy_construct,
      payload_type.construct, payload_type.copy_assign, hct, hat]
    cases hvc : sc.have_value <;> cases vc <;> simp [hvc] at hc <;>
    cases hvo : so.have_value <;> cases vo <;> simp [hvo] at ho <;>
    simp [hvc, hvo]

theorem assignment_four_cases_witness :
    ((⟨some 1, ⟨status.have_value.code, 3⟩⟩ : value_storage_nontrivial Nat).consistent ∧
      (⟨Option.none, ⟨status.have_error.code, 4⟩⟩ : value_storage_nontrivial Nat).consistent ∧
      (∀ n, (throwing_payload []).ctor_throws n = Option.none) ∧
      (∀ n, (throwing_payload []).assign_throws n = Option.none)) ∧
    ((∃ r, value_storage_nontrivial_move_assignment.assign (throwing_payload []) {}
          ⟨some 1, ⟨status.have_value.code, 3⟩⟩ ⟨Option.none, ⟨status.have_error.code, 4⟩⟩ =
            some r ∧
        r.thrown = Option.none ∧
        r.self._status = ⟨status.have_error.code, 4⟩ ∧ r.self._value = Option.none ∧
        r.log =
          (if (⟨status.have_value.code, 3⟩ : status_bitfield_type).have_value &&
              (⟨status.have_error.code, 4⟩ : status_bitfield_type).have_value then
            { ({} : payload_log) with assign_calls := ({} : payload_log).assign_calls + 1 }
          else if (⟨status.have_value.code, 3⟩ : status_bitfield_type).have_value then
            ({} : payload_log).destroy
          else if (⟨status.have_error.code, 4⟩ : status_bitfield_type).have_value then
            { ({} : payload_log) with ctor_calls := ({} : payload_log).ctor_calls + 1,
                                      constructions := ({} : payload_log).constructions + 1 }
          else {})) ∧
      (∃ r, value_storage_nontrivial_copy_assignment.assign (throwing_payload []) {}
          ⟨some 1, ⟨status.have_value.code, 3⟩⟩ ⟨Option.none, ⟨status.have_error.code, 4⟩⟩ =
            some r ∧
        r.thrown = Option.none ∧
        r.self._status = ⟨status.have_error.code, 4⟩ ∧ r.self._value = Option.none ∧
        r.o = ⟨Option.none, ⟨status.have_error.code, 4⟩⟩ ∧
        r.log =
          (if (⟨status.have_value.code, 3⟩ : status_bitfield_type).have_value &&
              (⟨status.have_error.code, 4⟩ : status_bitfield_type).have_value then
            { ({} : payload_log) with assign_calls := ({} : payload_log).assign_calls + 1 }
          else if (⟨status.have_value.code, 3⟩ : status_bitfield_type).have_value then
            ({} : payload_log).destroy
          else if (⟨status.have_error.code, 4⟩ : status_bitfield_type).have_value then
            { ({} : payload_log) with ctor_calls := ({} : payload_log).ctor_calls + 1,
                                      constructions := ({} : payload_log).constructions + 1 }
          else {}))) :=
  ⟨⟨by decide, by decide, fun _ => rfl, fun _ => rfl⟩,
    assignment_four_cases (throwing_payload []) {}
      ⟨some 1, ⟨status.have_value.code, 3⟩⟩ ⟨Option.none, ⟨status.have_error.code, 4⟩⟩
      (by decide) (by decide) (fun _ => rfl) (fun _ => rfl)⟩

/-- C12: copy or move constructing a non-trivial cell from a consistent source cell (the
payload constructor not throwing) yields a cell whose tag, all flags and spare storage, equals
the source's tag and whose payload state is the source's: exactly one payload is constructed,
from the source's payload, when the source has the value bit, and no payload operation runs
when it has not. -/
theorem constructor_copies_tag (P : payload_type T E) (log : payload_log)
    (o : value_storage_nontrivial T) (ho : o.consistent)
    (hct : P.ctor_throws log.ctor_calls = Option.none) :
    (∃ r c, value_storage_nontrivial.copy_constructor P log o = some r ∧ r.result = .ok c ∧
      c._status = o._status ∧ c._value = o._value ∧
      r.log =
        (if o._status.have_value then
          { log with ctor_calls := log.ctor_calls + 1, constructions := log.constructions + 1 }
        else log)) ∧
    (∃ r c, value_storage_nontrivial.move_constructor P log o = some r ∧ r.result = .ok c ∧
      c._status = o._status ∧ c._value = o._value ∧
      r.log =
        (if o._status.have_value then
          { log with ctor_calls := log.ctor_calls + 1, constructions := log.constructions + 1 }
        else log)) := by
  obtain ⟨vo, so⟩ := o
  simp only [value_storage_nontrivial.consistent] at ho
  constructor
  · simp only [value_storage_nontrivial.copy_constructor, payload_type.copy_construct,
      payload_type.construct, hct]
    cases hvo : so.have_value <;> cases vo <;> simp [hvo] at ho <;> simp [hvo]
  · simp only [value_storage_nontrivial.move_constructor, payload_type.move_construct, hct]
    cases hvo : so.have_value <;> cases vo <;> simp [hvo] at ho <;> simp [hvo]

theorem constructor_copies_tag_witness :
    ((⟨some 7, ⟨status.have_value_lost_consistency.code, 11⟩⟩ :
        value_storage_nontrivial Nat).consistent ∧
      (throwing_payload []).ctor_throws (({} : payload_log).ctor_calls) = Option.none) ∧
    ((∃ r c, value_storage_nontrivial.copy_constructor (throwing_payload []) {}
          ⟨some 7, ⟨status.have_value_lost_consistency.code, 11⟩⟩ = some r ∧
        r.result = .ok c ∧
        c._status = ⟨status.have_value_lost_consistency.code, 11⟩ ∧ c._value = some 7 ∧
        r.log =
          (if (⟨status.have_value_lost_consistency.code, 11⟩ : status_bitfield_type).have_value
          then
            { ({} : payload_log) with ctor_calls := ({} : payload_log).ctor_calls + 1,
                                      constructions := ({} : payload_log).constructions + 1 }
          else {})) ∧
      (∃ r c, value_storage_nontrivial.move_constructor (throwing_payload []) {}
          ⟨some 7, ⟨status.have_value_lost_consistency.code, 11⟩⟩ = some r ∧
        r.result = .ok c ∧
        c._status = ⟨status.have_value_lost_consistency.code, 11⟩ ∧ c._value = some 7 ∧
        r.log =
          (if (⟨status.have_value_lost_consistency.code, 11⟩ : status_bitfield_type).have_value
          then
            { ({} : payload_log) with ctor_calls := ({} : payload_log).ctor_calls + 1,
                                      constructions := ({} : payload_log).constructions + 1 }
          else {}))) :=
  ⟨⟨by decide, rfl⟩,
    constructor_copies_tag (throwing_payload []) {}
      ⟨some 7, ⟨status.have_value_lost_consistency.code, 11⟩⟩ (by decide) rfl⟩

theorem nontrivial_converting_eq {U : Type} (P : payload_type T E) (copy_elision : Bool)
    (log : payload_log) (conv : U → T × U) (o_status : status_bitfield_type)
    (o_value : Option U) (ho : o_value.isSome = o_status.have_value)
    (hct : ∀ n, P.ctor_throws n = Option.none) :
    ∃ r c, value_storage_nontrivial.converting P copy_elision log conv o_status o_value =
        some r ∧
      r.result = .ok c ∧ c._value = o_value.map (fun u => (conv u).1) ∧
      c._status = o_status := by
  have hv : (⟨status.have_value.code, 0⟩ : status_bitfield_type).have_value = true := by
    decide
  have hn : (⟨status.none.code, 0⟩ : status_bitfield_type).have_value = false := by
    decide
  simp only [value_storage_nontrivial.converting, value_storage_nontrivial.from_temporary,
    value_storage_nontrivial.in_place, value_storage_nontrivial.move_constructor,
    value_storage_nontrivial.destructor, payload_type.construct, payload_type.move_construct,
    hct]
  cases hvo : o_status.have_value <;> cases o_value <;> simp [hvo] at ho <;>
    cases copy_elision <;> simp [hvo, hv, hn]

theorem trivial_converting_eq {U : Type} (P : payload_type T E) (log : payload_log)
    (conv : U → T × U) (o : value_storage_trivial U) (ho : o.consistent)
    (hct : ∀ n, P.ctor_throws n = Option.none) :
    ∃ r c, value_storage_trivial.converting P log conv o = some r ∧
      r.result = .ok c ∧ c._value = o._value.map (fun u => (conv u).1) ∧
      c._status = o._status := by
  obtain ⟨vo, so⟩ := o
  simp only [value_storage_trivial.consistent] at ho
  simp only [value_storage_trivial.converting, value_storage_trivial.in_place,
    value_storage_trivial.move_constructor, payload_type.construct, hct]
  cases hvo : so.have_value <;> cases vo <;> simp [hvo] at ho <;> simp [hvo]

/-- C13: every converting constructor, of the non-trivial cell (from a non-trivial or a
trivial cell, by copy or by move, with or without copy elision) and of the trivial cell (by
copy or by move), applied to a consistent source cell with no payload constructor throwing,
yields a cell whose tag equals the source's tag, spare storage included, and whose payload is
the conversion of the source's payload when the source holds a value and absent when it does
not. -/
theorem converting_construction {U : Type} (P : payload_type T E) (copy_elision : Bool)
    (log : payload_log) (conv : U → T) (conv_move : U → T × U)
    (o : value_storage_nontrivial U) (ot : value_storage_trivial U)
    (ho : o.consistent) (hot : ot.consistent) (hct : ∀ n, P.ctor_throws n = Option.none) :
    (∃ r c, value_storage_nontrivial.converting_copy_constructor P copy_elision log conv o =
        some r ∧
      r.result = .ok c ∧ c._value = o._value.map conv ∧ c._status = o._status) ∧
    (∃ r c, value_storage_nontrivial.converting_copy_constructor_trivial P copy_elision log
        conv ot = some r ∧
      r.result = .ok c ∧ c._value = ot._value.map conv ∧ c._status = ot._status) ∧
    (∃ r c, value_storage_nontrivial.converting_move_constructor P copy_elision log conv_move
        o = some r ∧
      r.result = .ok c ∧ c._value = o._value.map (fun u => (conv_move u).1) ∧
      c._status = o._status) ∧
    (∃ r c, value_storage_nontrivial.converting_move_constructor_trivial P copy_elision log
        conv_move ot = some r ∧
      r.result = .ok c ∧ c._value = ot._value.map (fun u => (conv_move u).1) ∧
      c._status = ot._status) ∧
    (∃ r c, value_storage_trivial.converting_copy_constructor P log conv ot = some r ∧
      r.result = .ok c ∧ c._value = ot._value.map conv ∧ c._status = ot._status) ∧
    (∃ r c, value_storage_trivial.converting_move_constructor P log conv_move ot = some r ∧
      r.result = .ok c ∧ c._value = ot._value.map (fun u => (conv_move u).1) ∧
      c._status = ot._status) :=
  ⟨nontrivial_converting_eq P copy_elision log (fun u => (conv u, u)) o._status o._value ho hct,
    nontrivial_converting_eq P copy_elision log (fun u => (conv u, u)) ot._status ot._value
      hot hct,
    nontrivial_converting_eq P copy_elision log conv_move o._status o._value ho hct,
    nontrivial_converting_eq P copy_elision log conv_move ot._status ot._value hot hct,
    trivial_converting_eq P log (fun u => (conv u, u)) ot hot hct,
    trivial_converting_eq P log conv_move ot hot hct⟩

theorem converting_construction_witness :
    ((⟨some 5, ⟨status.have_value.code, 9⟩⟩ : value_storage_nontrivial Nat).consistent ∧
      (⟨Option.none, ⟨status.have_error.code, 2⟩⟩ : value_storage_trivial Nat).consistent ∧
      ∀ n, (throwing_payload []).ctor_throws n = Option.none) ∧
    ((∃ r c, value_storage_nontrivial.converting_copy_constructor (throwing_payload []) false {}
          (fun u => u + 100) ⟨some 5, ⟨status.have_value.code, 9⟩⟩ = some r ∧
        r.result = .ok c ∧
        c._value = (⟨some 5, ⟨status.have_value.code, 9⟩⟩ : value_storage_nontrivial Nat)._value.map (fun u => u + 100) ∧
        c._status = ⟨status.have_value.code, 9⟩) ∧
      (∃ r c, value_storage_nontrivial.converting_copy_constructor_trivial (throwing_payload []) false {}
          (fun u => u + 100) ⟨Option.none, ⟨status.have_error.code, 2⟩⟩ = some r ∧
        r.result = .ok c ∧
        c._value = (⟨Option.none, ⟨status.have_error.code, 2⟩⟩ : value_storage_trivial Nat)._value.map (fun u => u + 100) ∧
        c._status = ⟨status.have_error.code, 2⟩) ∧
      (∃ r c, value_storage_nontrivial.converting_move_constructor (throwing_payload []) false {}
          (fun u => (u + 100, 0)) ⟨some 5, ⟨status.have_value.code, 9⟩⟩ = some r ∧
        r.result = .ok c ∧
        c._value = (⟨some 5, ⟨status.have_value.code, 9⟩⟩ : value_storage_nontrivial Nat)._value.map
          (fun u => ((fun u => (u + 100, 0)) u).1) ∧
        c._status = ⟨status.have_value.code, 9⟩) ∧
      (∃ r c, value_storage_nontrivial.converting_move_constructor_trivial (throwing_payload []) false {}
          (fun u => (u + 100, 0)) ⟨Option.none, ⟨status.have_error.code, 2⟩⟩ = some r ∧
        r.result = .ok c ∧
        c._value = (⟨Option.none, ⟨status.have_error.code, 2⟩⟩ : value_storage_trivial Nat)._value.map
          (fun u => ((fun u => (u + 100, 0)) u).1) ∧
        c._status = ⟨status.have_error.code, 2⟩) ∧
      (∃ r c, value_storage_trivial.converting_copy_constructor (throwing_payload []) {}
          (fun u => u + 100) ⟨Option.none, ⟨status.have_error.code, 2⟩⟩ = some r ∧
        r.result = .ok c ∧
        c._value = (⟨Option.none, ⟨status.have_error.code, 2⟩⟩ : value_storage_trivial Nat)._value.map (fun u => u + 100) ∧
        c._status = ⟨status.have_error.code, 2⟩) ∧
      (∃ r c, value_storage_trivial.converting_move_constructor (throwing_payload []) {}
          (fun u => (u + 100, 0)) ⟨Option.none, ⟨status.have_error.code, 2⟩⟩ = some r ∧
        r.result = .ok c ∧
        c._value = (⟨Option.none, ⟨status.have_error.code, 2⟩⟩ : value_storage_trivial Nat)._value.map
          (fun u => ((fun u => (u + 100, 0)) u).1) ∧
        c._status = ⟨status.have_error.code, 2⟩)) :=
  ⟨⟨by decide, by decide, fun _ => rfl⟩,
    converting_construction (throwing_payload []) false {} (fun u => u + 100) (fun u => (u + 100, 0))
      ⟨some 5, ⟨status.have_value.code, 9⟩⟩ ⟨Option.none, ⟨status.have_error.code, 2⟩⟩ (by decide) (by decide) (fun _ => rfl)⟩

/-- C14: for every value `v`, a cell constructed in place from `v` (trivial or non-trivial, the
payload constructor not throwing) holds `v`, its tag is exactly `have_value` with spare storage
0, and that tag has the value flag and none of the error, exception, lost-consistency,
error-is-errno and moved-from flags. -/
theorem in_place_holds_value (P : payload_type T E) (log : payload_log) (v : T)
    (hct : P.ctor_throws log.ctor_calls = Option.none) :
    (∃ log1 c, value_storage_nontrivial.in_place P log v = (log1, .ok c) ∧
      c._value = some v ∧ c._status = ⟨status.have_value.code, 0⟩) ∧
    (∃ log1 c, value_storage_trivial.in_place P log v = (log1, .ok c) ∧
      c._value = some v ∧ c._status = ⟨status.have_value.code, 0⟩) ∧
    (⟨status.have_value.code, 0⟩ : status_bitfield_type).have_value = true ∧
    (⟨status.have_value.code, 0⟩ : status_bitfield_type).have_error = false ∧
    (⟨status.have_value.code, 0⟩ : status_bitfield_type).have_exception = false ∧
    (⟨status.have_value.code, 0⟩ : status_bitfield_type).have_lost_consistency = false ∧
    (⟨status.have_value.code, 0⟩ : status_bitfield_type).have_error_is_errno = false ∧
    (⟨status.have_value.code, 0⟩ : status_bitfield_type).have_moved_from = false := by
  refine ⟨?_, ?_, by decide, by decide, by decide, by decide, by decide, by decide⟩
  · refine ⟨{ log with ctor_calls := log.ctor_calls + 1,
                       constructions := log.constructions + 1 },
      ⟨some v, ⟨status.have_value.code, 0⟩⟩, ?_, rfl, rfl⟩
    simp only [value_storage_nontrivial.in_place, payload_type.construct, hct]
  · refine ⟨{ log with ctor_calls := log.ctor_calls + 1,
                       constructions := log.constructions + 1 },
      ⟨some v, ⟨status.have_value.code, 0⟩⟩, ?_, rfl, rfl⟩
    simp only [value_storage_trivial.in_place, payload_type.construct, hct]

theorem in_place_holds_value_witness :
    (throwing_payload []).ctor_throws (({} : payload_log).ctor_calls) = Option.none ∧
    ((∃ log1 c, value_storage_nontrivial.in_place (throwing_payload []) {} 5 = (log1, .ok c) ∧
        c._value = some 5 ∧ c._status = ⟨status.have_value.code, 0⟩) ∧
      (∃ log1 c, value_storage_trivial.in_place (throwing_payload []) {} 5 = (log1, .ok c) ∧
        c._value = some 5 ∧ c._status = ⟨status.have_value.code, 0⟩) ∧
      (⟨status.have_value.code, 0⟩ : status_bitfield_type).have_value = true ∧
      (⟨status.have_value.code, 0⟩ : status_bitfield_type).have_error = false ∧
      (⟨status.have_value.code, 0⟩ : status_bitfield_type).have_exception = false ∧
      (⟨status.have_value.code, 0⟩ : status_bitfield_type).have_lost_consistency = false ∧
      (⟨status.have_value.code, 0⟩ : status_bitfield_type).have_error_is_errno = false ∧
      (⟨status.have_value.code, 0⟩ : status_bitfield_type).have_moved_from = false) :=
  ⟨rfl, in_place_holds_value (throwing_payload []) {} 5 rfl⟩

/-- C15: for the trivial cell, copy construction, move construction, copy assignment and move
assignment each produce a cell equal to the source in payload, tag and spare storage;
`swap(a, b)` leaves `a` equal to the old `b` and `b` equal to the old `a`; and swapping twice
restores both cells. -/
theorem trivial_cell_copy_and_swap (a b : value_storage_trivial T) :
    value_storage_trivial.copy_constructor a = a ∧
    value_storage_trivial.move_constructor a = a ∧
    value_storage_trivial.copy_assignment b a = a ∧
    value_storage_trivial.move_assignment b a = a ∧
    value_storage_trivial.swap a b = (b, a) ∧
    value_storage_trivial.swap (value_storage_trivial.swap a b).1
      (value_storage_trivial.swap a b).2 = (a, b) :=
  ⟨rfl, rfl, rfl, rfl, rfl, rfl⟩

/-- C16: swapping two value-holding consistent non-trivial cells when no payload operation
throws does not throw, exchanges the two payloads and exchanges the two tags, spare storage
included; so each cell's lost-consistency flag afterwards is the one of the tag it receives. -/
theorem swap_both_live (P : payload_type T E) (log : payload_log)
    (a b : value_storage_nontrivial T)
    (ha : a._status.have_value = true) (hb : b._status.have_value = true)
    (hla : a.consistent) (hlb : b.consistent)
    (hct : ∀ n, P.ctor_throws n = Option.none) (hat : ∀ n, P.assign_throws n = Option.none) :
    ∃ r, value_storage_nontrivial.swap P log a b = some r ∧ r.thrown = Option.none ∧
      r.self._value = b._value ∧ r.o._value = a._value ∧
      r.self._status = b._status ∧ r.o._status = a._status ∧
      r.self._status.have_lost_consistency = b._status.have_lost_consistency ∧
      r.o._status.have_lost_consistency = a._status.have_lost_consistency := by
  obtain ⟨va, sa⟩ := a
  obtain ⟨vb, sb⟩ := b
  simp only [value_storage_nontrivial.consistent] at hla hlb
  simp only at ha hb
  rw [ha] at hla
  rw [hb] at hlb
  cases va with
  | none => simp at hla
  | some x =>
  cases vb with
  | none => simp at hlb
  | some y =>
  simp only [value_storage_nontrivial.swap, ha, hb, strong_swap]
  by_cases hn : P.is_nothrow_swappable = true
  · simp [hn, strong_swap_impl_nothrow, std_swap, payload_type.move,
      value_storage_nontrivial.swap_guard]
  · simp [hn, strong_swap_impl_false_eq P log x y (hct _), hat,
      value_storage_nontrivial.swap_guard]

theorem swap_both_live_witness :
    ((⟨some 1, ⟨status.have_value.code, 5⟩⟩ : value_storage_nontrivial Nat)._status.have_value = true ∧
      (⟨some 2, ⟨status.have_value_lost_consistency.code, 6⟩⟩ : value_storage_nontrivial Nat)._status.have_value = true ∧
      (⟨some 1, ⟨status.have_value.code, 5⟩⟩ : value_storage_nontrivial Nat).consistent ∧
      (⟨some 2, ⟨status.have_value_lost_consistency.code, 6⟩⟩ : value_storage_nontrivial Nat).consistent ∧
      (∀ n, (throwing_payload []).ctor_throws n = Option.none) ∧
      (∀ n, (throwing_payload []).assign_throws n = Option.none)) ∧
    ∃ r, value_storage_nontrivial.swap (throwing_payload []) {} ⟨some 1, ⟨status.have_value.code, 5⟩⟩ ⟨some 2, ⟨status.have_value_lost_consistency.code, 6⟩⟩ = some r ∧
      r.thrown = Option.none ∧
      r.self._value = some 2 ∧ r.o._value = some 1 ∧
      r.self._status = ⟨status.have_value_lost_consistency.code, 6⟩ ∧
      r.o._status = ⟨status.have_value.code, 5⟩ ∧
      r.self._status.have_lost_consistency =
        (⟨status.have_value_lost_consistency.code, 6⟩ :
          status_bitfield_type).have_lost_consistency ∧
      r.o._status.have_lost_consistency =
        (⟨status.have_value.code, 5⟩ : status_bitfield_type).have_lost_consistency :=
  ⟨⟨by decide, by decide, by decide, by decide, fun _ => rfl, fun _ => rfl⟩,
    swap_both_live (throwing_payload []) {} ⟨some 1, ⟨status.have_value.code, 5⟩⟩ ⟨some 2, ⟨status.have_value_lost_consistency.code, 6⟩⟩
      (by decide) (by decide) (by decide) (by decide) (fun _ => rfl) (fun _ => rfl)⟩

/-- C17: swapping two non-trivial cells of which exactly one holds a value, the payload move
constructor not throwing: the payload is move-constructed into the formerly empty cell and the
vacated original is destroyed (exactly one construction, one destruction and no assignment),
the two tags are exchanged, spare storage included, and the formerly empty cell has the value
bit while the other has not. This holds whether `this` or `o` is the cell with the value. -/
theorem swap_one_live (P : payload_type T E) (log : payload_log) (x : T)
    (s_live s_empty : status_bitfield_type) (hl : s_live.have_value = true)
    (he : s_empty.have_value = false) (hct : P.ctor_throws log.ctor_calls = Option.none) :
    (∃ r, value_storage_nontrivial.swap P log ⟨some x, s_live⟩ ⟨Option.none, s_empty⟩ =
        some r ∧
      r.thrown = Option.none ∧
      r.self = ⟨Option.none, s_empty⟩ ∧ r.o = ⟨some x, s_live⟩ ∧
      r.o._status.have_value = true ∧ r.self._status.have_value = false ∧
      r.log = { log with ctor_calls := log.ctor_calls + 1,
                         constructions := log.constructions + 1,
                         destructions := log.destructions + 1 }) ∧
    (∃ r, value_storage_nontrivial.swap P log ⟨Option.none, s_empty⟩ ⟨some x, s_live⟩ =
        some r ∧
      r.thrown = Option.none ∧
      r.self = ⟨some x, s_live⟩ ∧ r.o = ⟨Option.none, s_empty⟩ ∧
      r.self._status.have_value = true ∧ r.o._status.have_value = false ∧
      r.log = { log with ctor_calls := log.ctor_calls + 1,
                         constructions := log.constructions + 1,
                         destructions := log.destructions + 1 }) := by
  constructor <;>
    simp [value_storage_nontrivial.swap, payload_type.move_construct, payload_log.destroy, hl,
      he, hct]

theorem swap_one_live_witness :
    ((⟨status.have_value.code, 5⟩ : status_bitfield_type).have_value = true ∧
      (⟨status.have_error.code, 6⟩ : status_bitfield_type).have_value = false ∧
      (throwing_payload []).ctor_throws (({} : payload_log).ctor_calls) = Option.none) ∧
    ((∃ r, value_storage_nontrivial.swap (throwing_payload []) {} ⟨some 1, ⟨status.have_value.code, 5⟩⟩
          ⟨Option.none, ⟨status.have_error.code, 6⟩⟩ = some r ∧
        r.thrown = Option.none ∧
        r.self = ⟨Option.none, ⟨status.have_error.code, 6⟩⟩ ∧ r.o = ⟨some 1, ⟨status.have_value.code, 5⟩⟩ ∧
        r.o._status.have_value = true ∧ r.self._status.have_value = false ∧
        r.log = { ({} : payload_log) with
                    ctor_calls := ({} : payload_log).ctor_calls + 1,
                    constructions := ({} : payload_log).constructions + 1,
                    destructions := ({} : payload_log).destructions + 1 }) ∧
      (∃ r, value_storage_nontrivial.swap (throwing_payload []) {} ⟨Option.none, ⟨status.have_error.code, 6⟩⟩
          ⟨some 1, ⟨status.have_value.code, 5⟩⟩ = some r ∧
        r.thrown = Option.none ∧
        r.self = ⟨some 1, ⟨status.have_value.code, 5⟩⟩ ∧ r.o = ⟨Option.none, ⟨status.have_error.code, 6⟩⟩ ∧
        r.self._status.have_value = true ∧ r.o._status.have_value = false ∧
        r.log = { ({} : payload_log) with
                    ctor_calls := ({} : payload_log).ctor_calls + 1,
                    constructions := ({} : payload_log).constructions + 1,
                    destructions := ({} : payload_log).destructions + 1 })) :=
  ⟨⟨by decide, by decide, rfl⟩,
    swap_one_live (throwing_payload []) {} 1 ⟨status.have_value.code, 5⟩ ⟨status.have_error.code, 6⟩
      (by decide) (by decide) rfl⟩

/-- C18: the end-to-end scenario at the storage level, the payload constructor not throwing. A
cell constructed in place with a value has tag `have_value`; after it is move-assigned from a
cell whose tag is `have_error` its tag is `have_error` (with the source's spare storage), it
holds no payload, and the old value has been destroyed exactly once; after it is then swapped
with another cell whose tag is `have_error`, both cells still have tag `have_error`, their
tags with spare storage are exchanged, no payload operation has run, and neither tag has the
lost-consistency flag. -/
theorem end_to_end_scenario (P : payload_type T E) (log : payload_log) (x : T)
    (spare1 spare2 : Nat) (hct : P.ctor_throws log.ctor_calls = Option.none) :
    ∃ log1 c1, value_storage_nontrivial.in_place P log x = (log1, .ok c1) ∧
      c1._status = ⟨status.have_value.code, 0⟩ ∧ c1._value = some x ∧
      ∃ r2, value_storage_nontrivial_move_assignment.assign P log1 c1
          ⟨Option.none, ⟨status.have_error.code, spare1⟩⟩ = some r2 ∧
        r2.thrown = Option.none ∧
        r2.self = ⟨Option.none, ⟨status.have_error.code, spare1⟩⟩ ∧
        r2.log.constructions = log.constructions + 1 ∧
        r2.log.destructions = log.destructions + 1 ∧
        ∃ r3, value_storage_nontrivial.swap P r2.log r2.self
            ⟨Option.none, ⟨status.have_error.code, spare2⟩⟩ = some r3 ∧
          r3.thrown = Option.none ∧
          r3.self = ⟨Option.none, ⟨status.have_error.code, spare2⟩⟩ ∧
          r3.o = ⟨Option.none, ⟨status.have_error.code, spare1⟩⟩ ∧
          r3.log = r2.log ∧
          r3.self._status.have_lost_consistency = false ∧
          r3.o._status.have_lost_consistency = false := by
  have hv : (⟨status.have_value.code, 0⟩ : status_bitfield_type).have_value = true := by
    decide
  have he : ∀ s : Nat, (⟨status.have_error.code, s⟩ : status_bitfield_type).have_value = false :=
    fun _ => (by decide : test_bits status.have_error.code status.have_value.code = false)
  have hl : ∀ s : Nat,
      (⟨status.have_error.code, s⟩ : status_bitfield_type).have_lost_consistency = false :=
    fun _ =>
      (by decide :
        test_bits status.have_error.code status.have_lost_consistency.code = false)
  refine ⟨{ log with ctor_calls := log.ctor_calls + 1,
                     constructions := log.constructions + 1 },
    ⟨some x, ⟨status.have_value.code, 0⟩⟩, ?_, rfl, rfl, ?_⟩
  · simp only [value_storage_nontrivial.in_place, payload_type.construct, hct]
  · refine ⟨⟨{ log with ctor_calls := log.ctor_calls + 1,
                         constructions := log.constructions + 1 }.destroy,
        ⟨Option.none, ⟨status.have_error.code, spare1⟩⟩,
        ⟨Option.none, ⟨status.have_error.code, spare1⟩⟩, Option.none⟩, ?_, rfl, rfl, rfl, rfl,
      ?_⟩
    · simp [value_storage_nontrivial_move_assignment.assign, hv, he]
    · refine ⟨⟨{ log with ctor_calls := log.ctor_calls + 1,
                           constructions := log.constructions + 1 }.destroy,
          ⟨Option.none, ⟨status.have_error.code, spare2⟩⟩,
          ⟨Option.none, ⟨status.have_error.code, spare1⟩⟩, Option.none⟩, ?_, rfl, rfl, rfl,
        rfl, hl _, hl _⟩
      simp [value_storage_nontrivial.swap, he]

theorem end_to_end_scenario_witness :
    (throwing_payload []).ctor_throws (({} : payload_log).ctor_calls) = Option.none ∧
    ∃ log1 c1, value_storage_nontrivial.in_place (throwing_payload []) {} 42 = (log1, .ok c1) ∧
      c1._status = ⟨status.have_value.code, 0⟩ ∧ c1._value = some 42 ∧
      ∃ r2, value_storage_nontrivial_move_assignment.assign (throwing_payload []) log1 c1
          ⟨Option.none, ⟨status.have_error.code, 7⟩⟩ = some r2 ∧
        r2.thrown = Option.none ∧
        r2.self = ⟨Option.none, ⟨status.have_error.code, 7⟩⟩ ∧
        r2.log.constructions = ({} : payload_log).constructions + 1 ∧
        r2.log.destructions = ({} : payload_log).destructions + 1 ∧
        ∃ r3, value_storage_nontrivial.swap (throwing_payload []) r2.log r2.self
            ⟨Option.none, ⟨status.have_error.code, 8⟩⟩ = some r3 ∧
          r3.thrown = Option.none ∧
          r3.self = ⟨Option.none, ⟨status.have_error.code, 8⟩⟩ ∧
          r3.o = ⟨Option.none, ⟨status.have_error.code, 7⟩⟩ ∧
          r3.log = r2.log ∧
          r3.self._status.have_lost_consistency = false ∧
          r3.o._status.have_lost_consistency = false :=
  ⟨rfl, end_to_end_scenario (throwing_payload []) {} 42 7 8 rfl⟩

/-- C22: constructing a cell, trivial or non-trivial, from a tag yields a cell with no payload
whose tag is exactly the given one, so that a tag built from a status and a spare value gives
exactly that status word and that spare storage; a tag built from a status alone has spare
storage 0; and default construction yields a cell with no payload, tag `none` and spare
storage 0. -/
theorem construct_from_tag (v : status) (s : Nat) (t : status_bitfield_type) :
    status_bitfield_type.from_status_and_spare v s = ⟨v.code, s⟩ ∧
    status_bitfield_type.from_status v = ⟨v.code, 0⟩ ∧
    (value_storage_trivial.from_status t : value_storage_trivial T) = ⟨Option.none, t⟩ ∧
    (value_storage_nontrivial.from_status t : value_storage_nontrivial T) = ⟨Option.none, t⟩ ∧
    (value_storage_trivial.from_status (status_bitfield_type.from_status_and_spare v s) :
      value_storage_trivial T) = ⟨Option.none, ⟨v.code, s⟩⟩ ∧
    (value_storage_nontrivial.from_status (status_bitfield_type.from_status_and_spare v s) :
      value_storage_nontrivial T) = ⟨Option.none, ⟨v.code, s⟩⟩ ∧
    (value_storage_trivial.default_constructor : value_storage_trivial T) =
      ⟨Option.none, ⟨status.none.code, 0⟩⟩ ∧
    (value_storage_nontrivial.default_constructor : value_storage_nontrivial T) =
      ⟨Option.none, ⟨status.none.code, 0⟩⟩ :=
  ⟨rfl, rfl, rfl, rfl, rfl, rfl, rfl, rfl⟩

/-- C26: when `strong_swap` throws but `allgood` is still true, `a` and `b` both hold their
original values: the swap was rolled back, not completed. -/
theorem strong_swap_rolled_back (P : payload_type T E) (log : payload_log) (a b : T)
    (ht : (strong_swap P log a b).thrown ≠ Option.none)
    (hg : (strong_swap P log a b).allgood = true) :
    (strong_swap P log a b).a = a ∧ (strong_swap P log a b).b = b := by
  by_cases hn : P.is_nothrow_swappable = true
  · simp [strong_swap, hn, strong_swap_impl_nothrow] at ht
  · have hs : strong_swap P log a b = strong_swap_impl_false P log a b := by
      simp [strong_swap, hn]
    rw [hs] at ht hg ⊢
    cases hq : P.ctor_throws log.ctor_calls with
    | some e => simp [strong_swap_impl_false, payload_type.move_construct, hq]
    | none =>
      rw [strong_swap_impl_false_eq P log a b hq] at ht hg ⊢
      revert ht hg
      cases h0 : P.assign_throws log.assign_calls <;>
      cases h1 : P.assign_throws (log.assign_calls + 1) <;>
      cases h2 : P.assign_throws (log.assign_calls + 2) <;>
      cases h3 : P.assign_throws (log.assign_calls + 3) <;>
      simp

theorem strong_swap_rolled_back_witness :
    ((strong_swap (throwing_payload [1]) {} 10 20).thrown ≠ Option.none ∧
      (strong_swap (throwing_payload [1]) {} 10 20).allgood = true) ∧
    ((strong_swap (throwing_payload [1]) {} 10 20).a = 10 ∧
      (strong_swap (throwing_payload [1]) {} 10 20).b = 20) :=
  ⟨⟨by decide, by decide⟩,
    strong_swap_rolled_back (throwing_payload [1]) {} 10 20 (by decide) (by decide)⟩

theorem cleared_value_bit (t : status_bitfield_type) :
    (t.set_have_value false).have_value = false ∧
    (t.set_have_value false).spare_storage_value = t.spare_storage_value ∧
    ∀ Y : flag, Y ≠ .value → Y.get (t.set_have_value false) = Y.get t := by
  refine ⟨have_value_set_have_value t false, rfl, ?_⟩
  intro Y hY
  have h := flag.get_set .value Y t false
  simpa [hY] using h

/-- C27: during copy construction, move construction and from-void construction of a
non-trivial cell from a consistent value-holding source, the payload constructor runs, and
while it runs the tag of the new cell has the value bit clear and the spare storage and every
other flag equal to the source's; if the payload constructor throws, no cell results; if it
succeeds, the cell's tag equals the source's. -/
theorem value_bit_clear_during_construction (P : payload_type T E) (log : payload_log)
    (default_value : T) (o : value_storage_nontrivial T) (ov : value_storage_trivial Unit)
    (ho : o._status.have_value = true) (hc : o.consistent)
    (hov : ov._status.have_value = true) :
    (∃ r t, value_storage_nontrivial.copy_constructor P log o = some r ∧
      r.status_during_construction = some t ∧ t.have_value = false ∧
      t.spare_storage_value = o._status.spare_storage_value ∧
      (∀ Y : flag, Y ≠ .value → Y.get t = Y.get o._status) ∧
      (∀ e, P.ctor_throws log.ctor_calls = some e → r.result = .error e) ∧
      (P.ctor_throws log.ctor_calls = Option.none →
        ∃ c, r.result = .ok c ∧ c._status = o._status)) ∧
    (∃ r t, value_storage_nontrivial.move_constructor P log o = some r ∧
      r.status_during_construction = some t ∧ t.have_value = false ∧
      t.spare_storage_value = o._status.spare_storage_value ∧
      (∀ Y : flag, Y ≠ .value → Y.get t = Y.get o._status) ∧
      (∀ e, P.ctor_throws log.ctor_calls = some e → r.result = .error e) ∧
      (P.ctor_throws log.ctor_calls = Option.none →
        ∃ c, r.result = .ok c ∧ c._status = o._status)) ∧
    (∃ t, (value_storage_nontrivial.from_void P log default_value ov).status_during_construction
        = some t ∧
      t.have_value = false ∧ t.spare_storage_value = ov._status.spare_storage_value ∧
      (∀ Y : flag, Y ≠ .value → Y.get t = Y.get ov._status) ∧
      (∀ e, P.ctor_throws log.ctor_calls = some e →
        (value_storage_nontrivial.from_void P log default_value ov).result = .error e) ∧
      (P.ctor_throws log.ctor_calls = Option.none →
        ∃ c, (value_storage_nontrivial.from_void P log default_value ov).result = .ok c ∧
          c._status = ov._status)) := by
  obtain ⟨vo, so⟩ := o
  simp only [value_storage_nontrivial.consistent] at hc
  simp only at ho
  rw [ho] at hc
  cases vo with
  | none => simp at hc
  | some x =>
  obtain ⟨h1, h2, h3⟩ := cleared_value_bit so
  obtain ⟨k1, k2, k3⟩ := cleared_value_bit ov._status
  refine ⟨?_, ?_, ?_⟩
  · simp only [value_storage_nontrivial.copy_constructor, payload_type.copy_construct,
      payload_type.construct, ho]
    cases hq : P.ctor_throws log.ctor_calls <;> simp [h1, h2] <;> exact h3
  · simp only [value_storage_nontrivial.move_constructor, payload_type.move_construct, ho]
    cases hq : P.ctor_throws log.ctor_calls <;> simp [h1, h2] <;> exact h3
  · simp only [value_storage_nontrivial.from_void, payload_type.construct, hov]
    cases hq : P.ctor_throws log.ctor_calls <;> simp [k1, k2] <;> exact k3

theorem value_bit_clear_during_construction_witness :
    ((⟨some 7, ⟨status.have_value_lost_consistency.code, 11⟩⟩ : value_storage_nontrivial Nat)._status.have_value = true ∧
      (⟨some 7, ⟨status.have_value_lost_consistency.code, 11⟩⟩ : value_storage_nontrivial Nat).consistent ∧
      (⟨some (), ⟨status.have_value.code, 4⟩⟩ : value_storage_trivial Unit)._status.have_value = true) ∧
    ((∃ r t, value_storage_nontrivial.copy_constructor (throwing_payload []) {} ⟨some 7, ⟨status.have_value_lost_consistency.code, 11⟩⟩ = some r ∧
        r.status_during_construction = some t ∧ t.have_value = false ∧
        t.spare_storage_value = 11 ∧
        (∀ Y : flag, Y ≠ .value →
          Y.get t = Y.get ⟨status.have_value_lost_consistency.code, 11⟩) ∧
        (∀ e, (throwing_payload []).ctor_throws (({} : payload_log).ctor_calls) = some e →
          r.result = .error e) ∧
        ((throwing_payload []).ctor_throws (({} : payload_log).ctor_calls) = Option.none →
          ∃ c, r.result = .ok c ∧
            c._status = ⟨status.have_value_lost_consistency.code, 11⟩)) ∧
      (∃ r t, value_storage_nontrivial.move_constructor (throwing_payload []) {} ⟨some 7, ⟨status.have_value_lost_consistency.code, 11⟩⟩ = some r ∧
        r.status_during_construction = some t ∧ t.have_value = false ∧
        t.spare_storage_value = 11 ∧
        (∀ Y : flag, Y ≠ .value →
          Y.get t = Y.get ⟨status.have_value_lost_consistency.code, 11⟩) ∧
        (∀ e, (throwing_payload []).ctor_throws (({} : payload_log).ctor_calls) = some e →
          r.result = .error e) ∧
        ((throwing_payload []).ctor_throws (({} : payload_log).ctor_calls) = Option.none →
          ∃ c, r.result = .ok c ∧
            c._status = ⟨status.have_value_lost_consistency.code, 11⟩)) ∧
      (∃ t, (value_storage_nontrivial.from_void (throwing_payload []) {} 0
            ⟨some (), ⟨status.have_value.code, 4⟩⟩).status_during_construction = some t ∧
        t.have_value = false ∧ t.spare_storage_value = 4 ∧
        (∀ Y : flag, Y ≠ .value → Y.get t = Y.get ⟨status.have_value.code, 4⟩) ∧
        (∀ e, (throwing_payload []).ctor_throws (({} : payload_log).ctor_calls) = some e →
          (value_storage_nontrivial.from_void (throwing_payload []) {} 0 ⟨some (), ⟨status.have_value.code, 4⟩⟩).result = .error e) ∧
        ((throwing_payload []).ctor_throws (({} : payload_log).ctor_calls) = Option.none →
          ∃ c, (value_storage_nontrivial.from_void (throwing_payload []) {} 0 ⟨some (), ⟨status.have_value.code, 4⟩⟩).result = .ok c ∧
            c._status = ⟨status.have_value.code, 4⟩))) :=
  ⟨⟨by decide, by decide, by decide⟩,
    value_bit_clear_during_construction (throwing_payload []) {} 0 ⟨some 7, ⟨status.have_value_lost_consistency.code, 11⟩⟩ ⟨some (), ⟨status.have_value.code, 4⟩⟩
      (by decide) (by decide) (by decide)⟩

/-- C28, as stated, fails for the trivial cell: its from-void constructor constructs a payload
also when the source holds no value, so the result is not a cell without payload. -/
theorem from_void_counterexample :
    (⟨Option.none, ⟨status.have_error.code, 3⟩⟩ :
        value_storage_trivial Unit)._status.have_value = false ∧
    ∃ log c, value_storage_trivial.from_void (throwing_payload []) {} 0
        ⟨Option.none, ⟨status.have_error.code, 3⟩⟩ = (log, .ok c) ∧
      c._value = some 0 ∧ log.constructions = 1 :=
  ⟨by decide, _, _, rfl, rfl, rfl⟩

/-- C28, amended: with the payload constructor not throwing, the non-trivial cell's from-void
constructor default-constructs a payload (exactly one construction) if the source holds a
value and otherwise yields a cell without payload, no payload operation having run, and in
both cases the cell's tag is the source's; the trivial cell's from-void constructor always
constructs a default payload, whether or not the source holds a value, and its tag is the
source's as well. -/
theorem from_void_construction (P : payload_type T E) (log : payload_log) (default_value : T)
    (o : value_storage_trivial Unit) (hct : P.ctor_throws log.ctor_calls = Option.none) :
    (o._status.have_value = true →
      value_storage_nontrivial.from_void P log default_value o =
        { log := { log with ctor_calls := log.ctor_calls + 1,
                            constructions := log.constructions + 1 },
          status_during_construction := some (o._status.set_have_value false),
          result := .ok ⟨some default_value, o._status⟩ }) ∧
    (o._status.have_value = false →
      value_storage_nontrivial.from_void P log default_value o =
        { log := log, status_during_construction := Option.none,
          result := .ok ⟨Option.none, o._status⟩ }) ∧
    value_storage_trivial.from_void P log default_value o =
      ({ log with ctor_calls := log.ctor_calls + 1, constructions := log.constructions + 1 },
        .ok ⟨some default_value, o._status⟩) := by
  refine ⟨?_, ?_, ?_⟩
  · intro h
    simp [value_storage_nontrivial.from_void, payload_type.construct, hct, h]
  · intro h
    simp [value_storage_nontrivial.from_void, h]
  · simp [value_storage_trivial.from_void, payload_type.construct, hct]

theorem from_void_construction_witness :
    (throwing_payload []).ctor_throws (({} : payload_log).ctor_calls) = Option.none ∧
    (((⟨Option.none, ⟨status.have_error.code, 3⟩⟩ :
          value_storage_trivial Unit)._status.have_value = true →
        value_storage_nontrivial.from_void (throwing_payload []) {} 0
            ⟨Option.none, ⟨status.have_error.code, 3⟩⟩ =
          { log := { ({} : payload_log) with
                       ctor_calls := ({} : payload_log).ctor_calls + 1,
                       constructions := ({} : payload_log).constructions + 1 },
            status_during_construction :=
              some ((⟨status.have_error.code, 3⟩ : status_bitfield_type).set_have_value false),
            result := .ok ⟨some 0, ⟨status.have_error.code, 3⟩⟩ }) ∧
      ((⟨Option.none, ⟨status.have_error.code, 3⟩⟩ :
          value_storage_trivial Unit)._status.have_value = false →
        value_storage_nontrivial.from_void (throwing_payload []) {} 0
            ⟨Option.none, ⟨status.have_error.code, 3⟩⟩ =
          { log := {}, status_during_construction := Option.none,
            result := .ok ⟨Option.none, ⟨status.have_error.code, 3⟩⟩ }) ∧
      value_storage_trivial.from_void (throwing_payload []) {} 0
          ⟨Option.none, ⟨status.have_error.code, 3⟩⟩ =
        ({ ({} : payload_log) with
             ctor_calls := ({} : payload_log).ctor_calls + 1,
             constructions := ({} : payload_log).constructions + 1 },
          .ok ⟨some 0, ⟨status.have_error.code, 3⟩⟩)) :=
  ⟨rfl, from_void_construction (throwing_payload []) {} 0 ⟨Option.none, ⟨status.have_error.code, 3⟩⟩ rfl⟩

/-- C35: for two consistent non-trivial cells, the synthesized move assignment and the
synthesized copy assignment throw exactly when their payload operation throws (the payload
assignment when both are live, the payload construction when only the source is live), and
when they throw the target cell, tag and spare storage included, and the source cell are
left exactly as they were. -/
theorem assignment_throw_keeps_tag (P : payload_type T E) (log : payload_log)
    (c o : value_storage_nontrivial T) (hc : c.consistent) (ho : o.consistent) :
    (∃ r, value_storage_nontrivial_move_assignment.assign P log c o = some r ∧
      (r.thrown ≠ Option.none → r.self = c ∧ r.o = o) ∧
      (r.thrown =
        if c._status.have_value && o._status.have_value then P.assign_throws log.assign_calls
        else if !c._status.have_value && o._status.have_value then
          P.ctor_throws log.ctor_calls
        else Option.none)) ∧
    (∃ r, value_storage_nontrivial_copy_assignment.assign P log c o = some r ∧
      (r.thrown ≠ Option.none → r.self = c ∧ r.o = o) ∧
      (r.thrown =
        if c._status.have_value && o._status.have_value then P.assign_throws log.assign_calls
        else if !c._status.have_value && o._status.have_value then
          P.ctor_throws log.ctor_calls
        else Option.none)) := by
  obtain ⟨vc, sc⟩ := c
  obtain ⟨vo, so⟩ := o
  simp only [value_storage_nontrivial.consistent] at hc ho
  constructor
  · simp only [value_storage_nontrivial_move_assignment.assign, payload_type.move_construct,
      payload_type.move_assign]
    cases hvc : sc.have_value <;> cases vc <;> simp [hvc] at hc <;>
    cases hvo : so.have_value <;> cases vo <;> simp [hvo] at ho <;>
    cases hq : P.ctor_throws log.ctor_calls <;>
    cases hp : P.assign_throws log.assign_calls <;>
    simp [hvc, hvo]
  · simp only [value_storage_nontrivial_copy_assignment.assign, payload_type.copy_construct,
      payload_type.construct, payload_type.copy_assign]
    cases hvc : sc.have_value <;> cases vc <;> simp [hvc] at hc <;>
    cases hvo : so.have_value <;> cases vo <;> simp [hvo] at ho <;>
    cases hq : P.ctor_throws log.ctor_calls <;>
    cases hp : P.assign_throws log.assign_calls <;>
    simp [hvc, hvo]

/-- C36: move construction from, and synthesized move assignment from, a consistent
non-trivial source cell leave the source's tag, spare storage included, exactly as it was,
whether or not a payload operation throws: the moved-from flag is as before, and a
value-holding source still has the value bit and a live payload. -/
theorem move_keeps_source_tag (P : payload_type T E) (log : payload_log)
    (c o : value_storage_nontrivial T) (hc : c.consistent) (ho : o.consistent) :
    (∃ r, value_storage_nontrivial.move_constructor P log o = some r ∧
      r.o._status = o._status ∧
      r.o._status.have_moved_from = o._status.have_moved_from ∧
      (o._status.have_value = true →
        r.o._status.have_value = true ∧ r.o._value.isSome = true)) ∧
    (∃ r, value_storage_nontrivial_move_assignment.assign P log c o = some r ∧
      r.o._status = o._status ∧
      r.o._status.have_moved_from = o._status.have_moved_from ∧
      (o._status.have_value = true →
        r.o._status.have_value = true ∧ r.o._value.isSome = true)) := by
  obtain ⟨vc, sc⟩ := c
  obtain ⟨vo, so⟩ := o
  simp only [value_storage_nontrivial.consistent] at hc ho
  constructor
  · simp only [value_storage_nontrivial.move_constructor, payload_type.move_construct]
    cases hvo : so.have_value <;> cases vo <;> simp [hvo] at ho <;>
    cases hq : P.ctor_throws log.ctor_calls <;>
    simp [hvo]
  · simp only [value_storage_nontrivial_move_assignment.assign, payload_type.move_construct,
      payload_type.move_assign]
    cases hvc : sc.have_value <;> cases vc <;> simp [hvc] at hc <;>
    cases hvo : so.have_value <;> cases vo <;> simp [hvo] at ho <;>
    cases hq : P.ctor_throws log.ctor_calls <;>
    cases hp : P.assign_throws log.assign_calls <;>
    simp [hvc, hvo]

theorem assignment_throw_keeps_tag_witness :
    ((⟨some 1, ⟨status.have_value.code, 5⟩⟩ : value_storage_nontrivial Nat).consistent ∧
      (⟨some 2, ⟨status.have_value.code, 6⟩⟩ : value_storage_nontrivial Nat).consistent) ∧
    ((∃ r, value_storage_nontrivial_move_assignment.assign (throwing_payload [0]) {} ⟨some 1, ⟨status.have_value.code, 5⟩⟩ ⟨some 2, ⟨status.have_value.code, 6⟩⟩ = some r ∧
        (r.thrown ≠ Option.none → r.self = ⟨some 1, ⟨status.have_value.code, 5⟩⟩ ∧ r.o = ⟨some 2, ⟨status.have_value.code, 6⟩⟩) ∧
        (r.thrown =
          if (⟨status.have_value.code, 5⟩ : status_bitfield_type).have_value && (⟨status.have_value.code, 6⟩ : status_bitfield_type).have_value then
            (throwing_payload [0]).assign_throws ({} : payload_log).assign_calls
          else if !(⟨status.have_value.code, 5⟩ : status_bitfield_type).have_value && (⟨status.have_value.code, 6⟩ : status_bitfield_type).have_value then
            (throwing_payload [0]).ctor_throws ({} : payload_log).ctor_calls
          else Option.none)) ∧
      (∃ r, value_storage_nontrivial_copy_assignment.assign (throwing_payload [0]) {} ⟨some 1, ⟨status.have_value.code, 5⟩⟩ ⟨some 2, ⟨status.have_value.code, 6⟩⟩ = some r ∧
        (r.thrown ≠ Option.none → r.self = ⟨some 1, ⟨status.have_value.code, 5⟩⟩ ∧ r.o = ⟨some 2, ⟨status.have_value.code, 6⟩⟩) ∧
        (r.thrown =
          if (⟨status.have_value.code, 5⟩ : status_bitfield_type).have_value && (⟨status.have_value.code, 6⟩ : status_bitfield_type).have_value then
            (throwing_payload [0]).assign_throws ({} : payload_log).assign_calls
          else if !(⟨status.have_value.code, 5⟩ : status_bitfield_type).have_value && (⟨status.have_value.code, 6⟩ : status_bitfield_type).have_value then
            (throwing_payload [0]).ctor_throws ({} : payload_log).ctor_calls
          else Option.none))) :=
  ⟨⟨by decide, by decide⟩,
    assignment_throw_keeps_tag (throwing_payload [0]) {} ⟨some 1, ⟨status.have_value.code, 5⟩⟩ ⟨some 2, ⟨status.have_value.code, 6⟩⟩ (by decide) (by decide)⟩

theorem move_keeps_source_tag_witness :
    ((⟨some 1, ⟨status.have_value.code, 5⟩⟩ : value_storage_nontrivial Nat).consistent ∧
      (⟨some 2, ⟨status.have_value.code, 6⟩⟩ : value_storage_nontrivial Nat).consistent) ∧
    ((∃ r, value_storage_nontrivial.move_constructor (throwing_payload []) {} ⟨some 2, ⟨status.have_value.code, 6⟩⟩ = some r ∧
        r.o._status = ⟨status.have_value.code, 6⟩ ∧
        r.o._status.have_moved_from = (⟨status.have_value.code, 6⟩ : status_bitfield_type).have_moved_from ∧
        ((⟨status.have_value.code, 6⟩ : status_bitfield_type).have_value = true →
          r.o._status.have_value = true ∧ r.o._value.isSome = true)) ∧
      (∃ r, value_storage_nontrivial_move_assignment.assign (throwing_payload []) {} ⟨some 1, ⟨status.have_value.code, 5⟩⟩ ⟨some 2, ⟨status.have_value.code, 6⟩⟩ = some r ∧
        r.o._status = ⟨status.have_value.code, 6⟩ ∧
        r.o._status.have_moved_from = (⟨status.have_value.code, 6⟩ : status_bitfield_type).have_moved_from ∧
        ((⟨status.have_value.code, 6⟩ : status_bitfield_type).have_value = true →
          r.o._status.have_value = true ∧ r.o._value.isSome = true))) :=
  ⟨⟨by decide, by decide⟩,
    move_keeps_source_tag (throwing_payload []) {} ⟨some 1, ⟨status.have_value.code, 5⟩⟩ ⟨some 2, ⟨status.have_value.code, 6⟩⟩ (by decide) (by decide)⟩

end cells

/-! # Properties of the selection of the storage type -/

/-- C19: for a payload that is move-constructible but not copy-constructible, whatever its
other traits, the storage type assembled by `value_storage_select_impl` contains the layer
`value_storage_delete_copy_constructor` over the result of
`value_storage_select_move_constructor`, which is the bare cell; its move constructor is
available and its copy constructor is not. -/
theorem move_only_payload_selection (T : payload_traits)
    (hm : T.is_move_constructible = true) (hc : T.is_copy_constructible = false) :
    value_storage_select_move_constructor T = value_storage_select_trivality T ∧
    value_storage_select_copy_constructor T =
      .value_storage_delete_copy_constructor (value_storage_select_trivality T) ∧
    (value_storage_select_impl T).available T .move_constructor = true ∧
    (value_storage_select_impl T).available T .copy_constructor = false := by
  obtain ⟨tc, mc, cc, tma, ma, tca, ca⟩ := T
  simp only at hm hc
  subst hm hc
  revert tc tma ma tca ca
  decide

theorem move_only_payload_selection_witness :
    ((⟨false, true, false, false, true, false, false⟩ : payload_traits).is_move_constructible =
        true ∧
      (⟨false, true, false, false, true, false, false⟩ : payload_traits).is_copy_constructible =
        false) ∧
    (value_storage_select_move_constructor ⟨false, true, false, false, true, false, false⟩ =
        value_storage_select_trivality ⟨false, true, false, false, true, false, false⟩ ∧
      value_storage_select_copy_constructor ⟨false, true, false, false, true, false, false⟩ =
        .value_storage_delete_copy_constructor
          (value_storage_select_trivality ⟨false, true, false, false, true, false, false⟩) ∧
      (value_storage_select_impl ⟨false, true, false, false, true, false, false⟩).available
        ⟨false, true, false, false, true, false, false⟩ .move_constructor = true ∧
      (value_storage_select_impl ⟨false, true, false, false, true, false, false⟩).available
        ⟨false, true, false, false, true, false, false⟩ .copy_constructor = false) :=
  ⟨⟨rfl, rfl⟩,
    move_only_payload_selection ⟨false, true, false, false, true, false, false⟩ rfl rfl⟩

/-- C20 fails on the code: for a trivially copyable payload that is copy-constructible,
move-constructible and trivially copy-assignable but not move-assignable,
`value_storage_select_impl` assembles `value_storage_delete_copy_assignment` over the trivial
cell, whose copy assignment is deleted although the payload supports copy assignment; the
layer `value_storage_delete_move_assignment` is not the one selected. -/
theorem capability_mirroring_fails :
    value_storage_select_impl ⟨true, true, true, false, false, true, true⟩ =
      .value_storage_delete_copy_assignment .value_storage_trivial ∧
    (⟨true, true, true, false, false, true, true⟩ : payload_traits).supports
      .copy_assignment = true ∧
    (value_storage_select_impl ⟨true, true, true, false, false, true, true⟩).declares
      .copy_assignment = .deleted ∧
    (value_storage_select_impl ⟨true, true, true, false, false, true, true⟩).available
      ⟨true, true, true, false, false, true, true⟩ .copy_assignment = false := by
  decide

/-- C21: for a payload that is trivially copyable, copy- and move-constructible and trivially
copy- and move-assignable (as `int` is), `value_storage_select_impl` is the bare trivial
cell, under no deleting or synthesising layer; all four of its special member functions are
the defaulted ones, and each is available exactly when the payload supports it. -/
theorem trivial_payload_selection (T : payload_traits)
    (h1 : T.is_trivially_copyable = true) (h2 : T.is_move_constructible = true)
    (h3 : T.is_copy_constructible = true) (h4 : T.is_trivially_move_assignable = true)
    (h5 : T.is_trivially_copy_assignable = true) :
    value_storage_select_impl T = .value_storage_trivial ∧
    (∀ m : special_member, (value_storage_select_impl T).declares m = .defaulted) ∧
    (∀ m : special_member, (value_storage_select_impl T).available T m = T.supports m) := by
  obtain ⟨tc, mc, cc, tma, ma, tca, ca⟩ := T
  simp only at h1 h2 h3 h4 h5
  subst h1 h2 h3 h4 h5
  revert ma ca
  decide

theorem trivial_payload_selection_witness :
    ((⟨true, true, true, true, true, true, true⟩ : payload_traits).is_trivially_copyable =
        true ∧
      (⟨true, true, true, true, true, true, true⟩ : payload_traits).is_move_constructible =
        true ∧
      (⟨true, true, true, true, true, true, true⟩ : payload_traits).is_copy_constructible =
        true ∧
      (⟨true, true, true, true, true, true, true⟩ :
        payload_traits).is_trivially_move_assignable = true ∧
      (⟨true, true, true, true, true, true, true⟩ :
        payload_traits).is_trivially_copy_assignable = true) ∧
    (value_storage_select_impl ⟨true, true, true, true, true, true, true⟩ =
        .value_storage_trivial ∧
      (∀ m : special_member,
        (value_storage_select_impl ⟨true, true, true, true, true, true, true⟩).declares m =
          .defaulted) ∧
      (∀ m : special_member,
        (value_storage_select_impl ⟨true, true, true, true, true, true, true⟩).available
            ⟨true, true, true, true, true, true, true⟩ m =
          (⟨true, true, true, true, true, true, true⟩ : payload_traits).supports m)) :=
  ⟨⟨rfl, rfl, rfl, rfl, rfl⟩,
    trivial_payload_selection ⟨true, true, true, true, true, true, true⟩ rfl rfl rfl rfl rfl⟩

/-- C29 fails on the code: for every payload that is not move-assignable, whatever its other
traits, `value_storage_select_move_assignment` wraps the cell in
`value_storage_delete_copy_assignment`, not in `value_storage_delete_move_assignment`; the
layer chosen deletes copy assignment and declares move assignment `= default`. -/
theorem move_assignment_layer_is_wrong :
    ∀ tc mc cc tca ca : Bool,
      value_storage_select_move_assignment ⟨tc, mc, cc, false, false, tca, ca⟩ =
        .value_storage_delete_copy_assignment
          (value_storage_select_copy_constructor ⟨tc, mc, cc, false, false, tca, ca⟩) ∧
      value_storage_select_move_assignment ⟨tc, mc, cc, false, false, tca, ca⟩ ≠
        .value_storage_delete_move_assignment
          (value_storage_select_copy_constructor ⟨tc, mc, cc, false, false, tca, ca⟩) ∧
      (value_storage_select_move_assignment ⟨tc, mc, cc, false, false, tca, ca⟩).declares
        .copy_assignment = .deleted ∧
      (value_storage_select_move_assignment ⟨tc, mc, cc, false, false, tca, ca⟩).declares
        .move_assignment = .defaulted := by
  decide

/-! # Properties of the enum-comparison getters and of the named constants -/

theorem flag.get_eq_test_bits_mask (X : flag) (t : status_bitfield_type) :
    X.get t = test_bits t.status_value X.mask := by
  cases X <;> rfl

/-- C30: for every one of the sixteen enumerators of `status` (with any spare storage) each of
the six bitwise getters returns true exactly for the flags the enumerator's name lists; every
getter tests its flag's single-flag mask; and the six masks are pairwise disjoint. -/
theorem named_constants_decode :
    (∀ (s : status) (X : flag) (spare : Nat), X.get ⟨s.code, spare⟩ = s.names X) ∧
    (∀ (X : flag) (t : status_bitfield_type), X.get t = test_bits t.status_value X.mask) ∧
    (∀ X Y : flag, X = Y ∨ X.mask &&& Y.mask = 0) := by
  refine ⟨?_, flag.get_eq_test_bits_mask, by decide⟩
  intro s X spare
  rw [flag.get_eq_test_bits_mask]
  show test_bits s.code X.mask = s.names X
  revert s X
  decide

/-! # Properties of the ring buffer of the hook example -/

/-- C23 fails on the code: starting from a fresh ring buffer, the first call of `next()` issues
index 0 (slot 0); after 16 further calls, the last of which hands out slot 0 again, `get(0)`
still returns slot 0 instead of not-found, because `idx - current` is negative. -/
theorem stale_slot_not_detected :
    (({} : mythreadlocaldata_t).next).1 = 0 ∧
    ((mythreadlocaldata_t.next_calls 16 {}).next).1 = 0 ∧
    (mythreadlocaldata_t.next_calls 17 {}).current = 17 ∧
    (mythreadlocaldata_t.next_calls 17 {}).get 0 = some 0 := by
  decide

/-- C24 fails on the code: with the counter at 65535 and an errored result, the construction
hook claims slot 15, the counter wraps to 0, the index written into spare storage is 65535,
and `get` of that index returns not-found instead of slot 15. -/
theorem round_trip_fails_at_wrap :
    hook_result_construction ⟨65535⟩ ⟨status.have_error.code, 0⟩ =
      (some 15, ⟨0⟩, ⟨status.have_error.code, 65535⟩) ∧
    poke_exception_slot ⟨0⟩ ⟨status.have_error.code, 65535⟩ = Option.none := by
  decide

theorem mythreadlocaldata_t.next_calls_current (n : Nat) :
    ∀ d : mythreadlocaldata_t,
      (mythreadlocaldata_t.next_calls n d).current % 65536 = (d.current + n) % 65536 := by
  induction n with
  | zero => intro d; rfl
  | succ n ih =>
    intro d
    show (mythreadlocaldata_t.next_calls n d.next.2).current % 65536 = _
    rw [ih]
    show ((d.current + 1) % 65536 + n) % 65536 = _
    omega

/-- C31: starting from `current = 0`, for every `n` the `n`-th call of `next()`, counting from
0, returns slot `n mod 16`, also after the 16-bit counter has wrapped around. -/
theorem next_returns_slots_in_order (n : Nat) :
    ((mythreadlocaldata_t.next_calls n {}).next).1 = n % 16 := by
  have h := mythreadlocaldata_t.next_calls_current n {}
  show (mythreadlocaldata_t.next_calls n {}).current % 16 = n % 16
  have h0 : ({} : mythreadlocaldata_t).current = 0 := rfl
  rw [h0] at h
  omega

/-! # Properties of the transition table -/

theorem table_keeps_handled (s : status) (f : table_setter) (v : Bool) (spare : Nat)
    (t' : status_bitfield_type) (hs : s.handled = true)
    (ht : f.table ⟨s.code, spare⟩ v = some t') :
    ∃ s' : status, s'.handled = true ∧ t' = ⟨s'.code, spare⟩ := by
  cases s <;> cases f <;> cases v <;>
    first
    | (exfalso; revert hs; decide)
    | (cases ht; done)
    | (cases ht; exact ⟨.none, rfl, rfl⟩)
    | (cases ht; exact ⟨.have_value, rfl, rfl⟩)
    | (cases ht; exact ⟨.have_error, rfl, rfl⟩)
    | (cases ht; exact ⟨.have_exception, rfl, rfl⟩)
    | (cases ht; exact ⟨.have_error_exception, rfl, rfl⟩)
    | (cases ht; exact ⟨.have_value_lost_consistency, rfl, rfl⟩)
    | (cases ht; exact ⟨.have_error_lost_consistency, rfl, rfl⟩)
    | (cases ht; exact ⟨.have_exception_lost_consistency, rfl, rfl⟩)
    | (cases ht; exact ⟨.have_error_exception_lost_consistency, rfl, rfl⟩)
    | (cases ht; exact ⟨.have_error_error_is_errno, rfl, rfl⟩)
    | (cases ht; exact ⟨.have_error_exception_error_is_errno, rfl, rfl⟩)
    | (cases ht; exact ⟨.have_error_lost_consistency_error_is_errno, rfl, rfl⟩)
    | (cases ht; exact ⟨.have_error_exception_lost_consistency_error_is_errno, rfl, rfl⟩)

theorem run_table_calls_handled (calls : List table_call) :
    ∀ (s : status) (spare : Nat) (t : status_bitfield_type), s.handled = true →
      run_table_calls ⟨s.code, spare⟩ calls = some t →
      ∃ s' : status, s'.handled = true ∧ t = ⟨s'.code, spare⟩ := by
  induction calls with
  | nil =>
    intro s spare t hs h
    cases h
    exact ⟨s, hs, rfl⟩
  | cons c cs ih =>
    intro s spare t hs h
    unfold run_table_calls at h
    cases hc : c.f.table ⟨s.code, spare⟩ c.v with
    | none => rw [hc] at h; cases h
    | some t' =>
      rw [hc] at h
      obtain ⟨s', hs', rfl⟩ := table_keeps_handled s c.f c.v spare t' hs hc
      exact ih s' spare t hs' h

theorem handled_errno_facts (s : status) (spare : Nat) (hs : s.handled = true) :
    ((⟨s.code, spare⟩ : status_bitfield_type).have_error_is_errno = true →
      (⟨s.code, spare⟩ : status_bitfield_type).have_error = true) ∧
    ((⟨s.code, spare⟩ : status_bitfield_type).have_error_is_errno_enum = true →
      (⟨s.code, spare⟩ : status_bitfield_type).have_error_enum = true) ∧
    ((⟨s.code, spare⟩ : status_bitfield_type).have_error_is_errno = true →
      ∃ t', status_bitfield_type.set_have_error_enum ⟨s.code, spare⟩ false = some t' ∧
        t'.have_error_is_errno = false ∧ t'.have_error_is_errno_enum = false) := by
  have key : ∀ s : status, s.handled = true →
      (test_bits s.code status.have_error_is_errno.code = true →
        test_bits s.code status.have_error.code = true) ∧
      ((⟨s.code, 0⟩ : status_bitfield_type).have_error_is_errno_enum = true →
        (⟨s.code, 0⟩ : status_bitfield_type).have_error_enum = true) ∧
      (test_bits s.code status.have_error_is_errno.code = true →
        ∃ s' : status, status_bitfield_type.set_have_error_enum ⟨s.code, 0⟩ false =
            some ⟨s'.code, 0⟩ ∧
          test_bits s'.code status.have_error_is_errno.code = false ∧
          (⟨s'.code, 0⟩ : status_bitfield_type).have_error_is_errno_enum = false) := by
    decide
  obtain ⟨k1, k2, k3⟩ := key s hs
  refine ⟨k1, k2, ?_⟩
  intro h
  obtain ⟨s', e1, e2, e3⟩ := k3 h
  refine ⟨⟨s'.code, spare⟩, ?_, e2, e3⟩
  revert e1
  cases s <;> cases s' <;>
    first
    | (intro e1; rfl)
    | (intro e1; exact absurd e1 (by decide))

/-- C33, as stated, fails on the compiled setters: from `none`, the calls
`set_have_error(true)`, `set_have_error_is_errno(true)` and `set_have_error(false)`, none of
which the table marks undefined on the tag it is made on, reach the status word 16
(`have_error_is_errno`), which has error-is-errno set and error clear; it is
`set_have_error(false)` on `have_error_error_is_errno`, a tag with error-is-errno set, that
yields it. -/
theorem errno_implies_error_counterexample :
    run_bitwise_calls ⟨status.none.code, 0⟩
        [⟨.set_have_error, true⟩, ⟨.set_have_error_is_errno, true⟩, ⟨.set_have_error, false⟩] =
      some ⟨status.have_error_is_errno.code, 0⟩ ∧
    (⟨status.have_error_is_errno.code, 0⟩ : status_bitfield_type).have_error_is_errno = true ∧
    (⟨status.have_error_is_errno.code, 0⟩ : status_bitfield_type).have_error = false ∧
    (⟨status.have_error_error_is_errno.code, 0⟩ :
      status_bitfield_type).have_error_is_errno = true ∧
    status_bitfield_type.set_have_error ⟨status.have_error_error_is_errno.code, 0⟩ false =
      ⟨status.have_error_is_errno.code, 0⟩ := by
  decide

/-- C33, amended: in the `switch` form of the setters, in every tag reachable from `none` (with
any spare storage) by setter calls that the table does not mark undefined, error-is-errno
implies error, for the bitwise and for the enum-comparison getters alike, and on such a tag
with error-is-errno set `set_have_error(false)` is defined and yields a tag without
error-is-errno; the bitwise form of `set_have_error(false)`, the compiled one, clears the
error flag of every tag `u` and leaves its error-is-errno flag as it was. -/
theorem errno_implies_error (spare : Nat) (calls : List table_call)
    (t : status_bitfield_type) (u : status_bitfield_type)
    (hrun : run_table_calls ⟨status.none.code, spare⟩ calls = some t) :
    (t.have_error_is_errno = true → t.have_error = true) ∧
    (t.have_error_is_errno_enum = true → t.have_error_enum = true) ∧
    (t.have_error_is_errno = true →
      ∃ t', status_bitfield_type.set_have_error_enum t false = some t' ∧
        t'.have_error_is_errno = false ∧ t'.have_error_is_errno_enum = false) ∧
    (u.set_have_error false).have_error = false ∧
    (u.set_have_error false).have_error_is_errno = u.have_error_is_errno := by
  obtain ⟨s, hs, rfl⟩ := run_table_calls_handled calls .none spare t rfl hrun
  obtain ⟨h1, h2, h3⟩ := handled_errno_facts s spare hs
  exact ⟨h1, h2, h3, flag.get_set .error .error u false,
    flag.get_set .error .error_is_errno u false⟩

theorem errno_implies_error_witness :
    run_table_calls ⟨status.none.code, 7⟩ [⟨.set_have_error, true⟩, ⟨.set_have_error_is_errno, true⟩, ⟨.set_have_exception, true⟩] =
      some ⟨status.have_error_exception_error_is_errno.code, 7⟩ ∧
    (((⟨status.have_error_exception_error_is_errno.code, 7⟩ :
          status_bitfield_type).have_error_is_errno = true →
        (⟨status.have_error_exception_error_is_errno.code, 7⟩ :
          status_bitfield_type).have_error = true) ∧
      ((⟨status.have_error_exception_error_is_errno.code, 7⟩ :
          status_bitfield_type).have_error_is_errno_enum = true →
        (⟨status.have_error_exception_error_is_errno.code, 7⟩ :
          status_bitfield_type).have_error_enum = true) ∧
      ((⟨status.have_error_exception_error_is_errno.code, 7⟩ :
          status_bitfield_type).have_error_is_errno = true →
        ∃ t', status_bitfield_type.set_have_error_enum
            ⟨status.have_error_exception_error_is_errno.code, 7⟩ false = some t' ∧
          t'.have_error_is_errno = false ∧ t'.have_error_is_errno_enum = false) ∧
      ((⟨status.have_error_error_is_errno.code, 7⟩ :
          status_bitfield_type).set_have_error false).have_error = false ∧
      ((⟨status.have_error_error_is_errno.code, 7⟩ :
          status_bitfield_type).set_have_error false).have_error_is_errno =
        (⟨status.have_error_error_is_errno.code, 7⟩ :
          status_bitfield_type).have_error_is_errno) :=
  ⟨by decide,
    errno_implies_error 7 [⟨.set_have_error, true⟩, ⟨.set_have_error_is_errno, true⟩, ⟨.set_have_exception, true⟩]
      ⟨status.have_error_exception_error_is_errno.code, 7⟩
      ⟨status.have_error_error_is_errno.code, 7⟩ (by decide)⟩

end outcome
